import Mathlib

/-!
Verification development for `web/docker_django/worker/functions.py` (CyDER).

The Python module is scripting glue around the proprietary `cympy` simulator
API.  We embed it shallowly:

* Python floats are modelled as exact rationals (`ℚ`).
* Python values flowing through the glue code are modelled by `PyVal`
  (`None`, booleans, ints, floats, strings, and opaque vendor objects).
* The vendor API (`cympy`) is modelled by an oracle environment `CymEnv`:
  every `QueryInfoNode` / `QueryInfoDevice` call is a pure lookup in the
  oracle, returning `Except Unit PyVal` (`Except.error ()` models a raised
  exception).
* Every vendor call additionally emits an `Event`, so that each embedded
  function returns the list of vendor-API events it issues, in program
  order.  Fallible computations live in `Except Unit`.
* A pandas `DataFrame` is modelled row-orientedly: a `Frame` is a list of
  rows, a `Row` an association list from column name to `PyVal`.  Pandas
  column assignment replaces the column in place when it exists and appends
  it otherwise (`rowSet`); `itertuples` attribute access is `rowGet`
  (a missing column raises, modelled as `Except.error ()`).
-/

/-- A Python runtime value as used by the glue code: `None`, `bool`, `int`,
`float` (exact rational), `str`, or an opaque vendor object handle. -/
inductive PyVal where
  | none
  | bool (b : Bool)
  | int (n : ℤ)
  | float (q : ℚ)
  | str (s : String)
  | obj (h : ℕ)
deriving DecidableEq, Repr

/-- Python truthiness of a value (`if temp:`). -/
def PyVal.truthy : PyVal → Bool
  | .none => false
  | .bool b => b
  | .int n => n != 0
  | .float q => q != 0
  | .str s => s != ""
  | .obj _ => true

/-- Python `int()` on a float: truncation toward zero. -/
def pyInt (q : ℚ) : ℤ := if 0 ≤ q then ⌊q⌋ else ⌈q⌉

/-- Python `list()` on a value: a string is split into its characters;
any other value here is not iterable and raises. -/
def pyList : PyVal → Except Unit (List PyVal)
  | .str s => Except.ok (s.data.map (fun c => PyVal.str (String.singleton c)))
  | _ => Except.error ()

/-- The demand object built by `load_allocation`
(`cympy.sim.LoadValue`: fields `Value1`, `Value2`). -/
structure LoadValue where
  Value1 : ℚ
  Value2 : ℚ
deriving DecidableEq, Repr

/-- The meter object built by `load_allocation` (`cympy.sim.Meter`).
`LoadValueType` holds the vendor enum symbolically as a string. -/
structure Meter where
  IsTotalDemand : Bool
  DemandA : LoadValue
  DemandB : LoadValue
  DemandC : LoadValue
  LoadValueType : String
deriving DecidableEq, Repr

/-- One vendor-API call issued by the glue code, in program order.
`fileWrite` is the only event that could touch the file system; the code
never emits it. -/
inductive Event where
  | openModel (filename : String)
  | listNetworksEv
  | listNodesEv
  | setValueTopo (value : ℚ) (attr : String) (network : ℕ)
  | addDevice (name : String) (devType : ℤ) (sectionId : String) (model : String) (overwrite : Bool)
  | addPvDevice (name : String) (sectionId : String)
  | queryDevice (attr : String) (device : PyVal) (devType : ℤ)
  | setValueDevice (value : PyVal) (attr : String) (device : String) (devType : ℤ)
  | devSetValue (device : String) (value : PyVal) (attr : String)
  | loadFlowRun
  | queryNode (attr : String) (node : PyVal)
  | setDemand (network : ℕ) (demand : Meter)
  | loadAllocRun (networks : List ℕ)
  | fileWrite (path : String)
deriving DecidableEq, Repr

/-- Is the event an output-node attribute query (`QueryInfoNode`)? -/
def Event.isQueryNode : Event → Bool
  | .queryNode _ _ => true
  | _ => false

/-- Is the event a file-system write? -/
def Event.isFileWrite : Event → Bool
  | .fileWrite _ => true
  | _ => false

/-- The vendor simulator, as a pure oracle.  `listNetworks` / `listNodes`
return handles; `nodeID` is the `.ID` attribute of a node object;
`queryInfoDevice attr device devType` and `queryInfoNode attr node` model
`cympy.study.QueryInfo*` (`Except.error ()` = raised exception);
`parseFloat` models Python `float()` on a string (`none` = `ValueError`). -/
structure CymEnv where
  listNetworks : List ℕ
  listNodes : List ℕ
  nodeID : ℕ → PyVal
  queryInfoDevice : String → PyVal → ℤ → Except Unit PyVal
  queryInfoNode : String → PyVal → Except Unit PyVal
  parseFloat : String → Option ℚ

/-- Python `float()` applied to a value (raises on `None` and objects,
parses strings via the environment). -/
def pyFloat (env : CymEnv) : PyVal → Except Unit ℚ
  | .float q => Except.ok q
  | .int n => Except.ok (n : ℚ)
  | .bool b => Except.ok (if b then 1 else 0)
  | .str s =>
    match env.parseFloat s with
    | some q => Except.ok q
    | Option.none => Except.error ()
  | _ => Except.error ()

/-- Python `int()` applied to a value (floats truncate toward zero,
strings parse as integers, `None` and objects raise). -/
def pyToInt : PyVal → Except Unit ℤ
  | .int n => Except.ok n
  | .float q => Except.ok (pyInt q)
  | .bool b => Except.ok (if b then 1 else 0)
  | .str s =>
    match s.toInt? with
    | some n => Except.ok n
    | Option.none => Except.error ()
  | _ => Except.error ()

/-- A dataframe row: association list from column name to value. -/
abbrev Row := List (String × PyVal)

/-- A dataframe: list of rows, in index order. -/
abbrev Frame := List Row

/-- Does the row have the column? -/
def rowHas (r : Row) (c : String) : Bool := r.any (fun p => p.1 == c)

/-- Column names of a row, in order. -/
def rowKeys (r : Row) : List String := r.map (fun p => p.1)

/-- Read a column of a row (`itertuples` attribute access / column read);
a missing column raises. -/
def rowGet (r : Row) (c : String) : Except Unit PyVal :=
  match r.find? (fun p => p.1 == c) with
  | some p => Except.ok p.2
  | Option.none => Except.error ()

/-- Write a column of a row (pandas `.loc` / column assignment): replace in
place when present, append otherwise. -/
def rowSet (r : Row) (c : String) (v : PyVal) : Row :=
  if r.any (fun p => p.1 == c) then
    r.map (fun p => if p.1 == c then (c, v) else p)
  else
    r ++ [(c, v)]

/-- Model of `frame[c] = [0] * len(frame)`: set column `c` to integer `0` in every
row. -/
def addZeroCol (fr : Frame) (c : String) : Frame :=
  fr.map (fun r => rowSet r c (PyVal.int 0))

/-- Model of `frame[c] = frame[c].apply(f)`: apply `f` to column `c` of every row
(raises when `f` raises or the column is missing). -/
def applyCol (f : PyVal → Except Unit PyVal) (c : String) : Frame → Except Unit Frame
  | [] => Except.ok []
  | r :: rest => do
    let v ← rowGet r c
    let v2 ← f v
    let tail ← applyCol f c rest
    Except.ok (rowSet r c v2 :: tail)

/-- Python dict lookup on an association list built by repeated assignment:
the last binding wins; a missing key raises `KeyError`. -/
def dictGet (d : List (String × ℚ)) (k : String) : Except Unit ℚ :=
  match d.reverse.find? (fun p => p.1 == k) with
  | some p => Except.ok p.2
  | Option.none => Except.error ()

/-- Model of `_input_voltages`: dictionary from zipped names and values. -/
def _input_voltages (voltage_names : List String) (voltage_values : List ℚ) :
    List (String × ℚ) :=
  List.zip voltage_names voltage_values

/-- One load request (`{'section_id': ..., 'active_power': ..., 'parameter_name': ...}`). -/
structure Load where
  section_id : String
  active_power : ℚ
  parameter_name : String
deriving DecidableEq, Repr

/-- One PV request (`{'section_id': ..., 'generation': ..., 'parameter_name': ...}`). -/
structure Pv where
  section_id : String
  generation : ℚ
  parameter_name : String
deriving DecidableEq, Repr

/-- Model of `_input_loads`: zip the three load input lists (Python `zip` stops at
the shortest list). -/
def _input_loads (load_sections : List String) (load_parameter_names : List String)
    (load_values : List ℚ) : List Load :=
  (List.zip load_sections (List.zip load_parameter_names load_values)).map
    (fun p => { section_id := p.1, active_power := p.2.2, parameter_name := p.2.1 })

/-- Model of `_input_pvs`: zip the three PV input lists. -/
def _input_pvs (pv_sections : List String) (pv_parameter_names : List String)
    (pv_values : List ℚ) : List Pv :=
  (List.zip pv_sections (List.zip pv_parameter_names pv_values)).map
    (fun p => { section_id := p.1, generation := p.2.2, parameter_name := p.2.1 })

/-- Model of `_set_voltages`: list the networks, then write the three source
operating voltages of `networks[0]`, converting V to kV (`value / 1000`).
`networks[0]` on an empty list raises `IndexError`; a missing `VMAG_*` key
raises `KeyError` (argument evaluation order: the `VMAG_A` lookup precedes
the first `SetValueTopo`, whose `networks[0]` precedes the `VMAG_B` lookup). -/
def _set_voltages (env : CymEnv) (voltages : List (String × ℚ)) :
    Except Unit (List Event) := do
  let vA ← dictGet voltages "VMAG_A"
  match env.listNetworks with
  | [] => Except.error ()
  | n0 :: _ => do
    let vB ← dictGet voltages "VMAG_B"
    let vC ← dictGet voltages "VMAG_C"
    Except.ok [Event.listNetworksEv,
      Event.setValueTopo (vA / 1000)
        "Sources[0].EquivalentSourceModels[0].EquivalentSource.OperatingVoltage1" n0,
      Event.setValueTopo (vB / 1000)
        "Sources[0].EquivalentSourceModels[0].EquivalentSource.OperatingVoltage2" n0,
      Event.setValueTopo (vC / 1000)
        "Sources[0].EquivalentSourceModels[0].EquivalentSource.OperatingVoltage3" n0]

/-- The inner `for phase in range(0, len(phases))` loop of `_add_loads`:
one `SetValueDevice` per phase index, each writing `power`. -/
def setKWLoop (power : ℚ) (name : String) (n : ℕ) : List Event :=
  (List.range n).map (fun phase =>
    Event.setValueDevice (PyVal.float power)
      ("CustomerLoads[0].CustomerLoadModels[0].CustomerLoadValues[" ++ toString phase ++ "].LoadValue.KW")
      name 14)

/-- Model of `for index, load in enumerate(loads)` body of `_add_loads`: add the
device (`AddDevice(name, 14, section, 'DEFAULT', Location.FirstAvailable,
True)`), query its phases, and set `active_power / len(phases)` on each
phase.  An empty phase list makes `len(phases) = 0` and the Python division
raises `ZeroDivisionError`, modelled as `Except.error ()`. -/
def _add_loads_go (env : CymEnv) (index : ℕ) : List Load → Except Unit (List Event)
  | [] => Except.ok []
  | load :: rest => do
    let name := "MY_LOAD_" ++ toString index
    let phasesVal ← env.queryInfoDevice "Phase" (PyVal.str name) 14
    let phases ← pyList phasesVal
    if phases.length = 0 then
      Except.error ()
    else do
      let tail ← _add_loads_go env (index + 1) rest
      Except.ok (Event.addDevice name 14 load.section_id "DEFAULT" true ::
        Event.queryDevice "Phase" (PyVal.str name) 14 ::
        setKWLoop (load.active_power / (phases.length : ℚ)) name phases.length ++ tail)

/-- Model of `_add_loads`. -/
def _add_loads (env : CymEnv) (loads : List Load) : Except Unit (List Event) :=
  _add_loads_go env 0 loads

/-- Model of `for index, pv in enumerate(pvs)` body of `_add_pvs`: add the PV device
(`AddDevice(name, DeviceType.Photovoltaic, section)`), set
`Np = int((generation + 30) / (23 * 0.08))`, the active generation, and the
two inverter ratings. -/
def _add_pvs_go (index : ℕ) : List Pv → Except Unit (List Event)
  | [] => Except.ok []
  | pv :: rest => do
    let name := "my_pv_" ++ toString index
    let np := pyInt ((pv.generation + 30) / (23 * 0.08))
    let tail ← _add_pvs_go (index + 1) rest
    Except.ok (Event.addPvDevice name pv.section_id ::
      Event.devSetValue name (PyVal.int np) "Np" ::
      Event.devSetValue name (PyVal.float pv.generation) "GenerationModels[0].ActiveGeneration" ::
      Event.devSetValue name (PyVal.float pv.generation) "Inverter.ActivePowerRating" ::
      Event.devSetValue name (PyVal.float pv.generation) "Inverter.ReactivePowerRating" ::
      tail)

/-- Model of `_add_pvs`. -/
def _add_pvs (pvs : List Pv) : Except Unit (List Event) :=
  _add_pvs_go 0 pvs

/-- Model of `_write_results`: the body is entirely commented out in the source; it
performs no vendor call and no file write, and returns `True`. -/
def _write_results (model_filename : String) : List Event × Bool :=
  ([], true)

/-- The `for node_id, category in zip(output_nodes, output_names)` loop of
`_output_values`: query each node attribute, substituting `default` when
the query raises or returns a falsy value. -/
def outputLoop (env : CymEnv) (default : PyVal) :
    List (String × String) → List Event × List PyVal
  | [] => ([], [])
  | (node_id, category) :: rest =>
    let out :=
      match env.queryInfoNode category (PyVal.str node_id) with
      | Except.ok temp => if temp.truthy then temp else default
      | Except.error _ => default
    let tail := outputLoop env default rest
    (Event.queryNode category (PyVal.str node_id) :: tail.1, out :: tail.2)

/-- Model of `_output_values(output_nodes, output_names, DEFAULT_VALUE=0)`. -/
def _output_values (env : CymEnv) (output_nodes output_names : List String)
    (default : PyVal) : List Event × List PyVal :=
  outputLoop env default (List.zip output_nodes output_names)

/-- Model of `fmu_wrapper`: build the input dictionaries, open the model, set the
source voltages, add loads and PVs when requested, run the load flow,
optionally "write" results (a no-op), and extract the output values.
In the source `loads` is `False` when `load_sections` is empty and the
zipped list otherwise; `if loads:` is Python truthiness, so both `False`
and an empty zipped list skip `_add_loads` — modelled by `[]` and
`isEmpty` (likewise for `pvs`). -/
def fmu_wrapper (env : CymEnv) (model_filename : String)
    (voltage_names : List String) (voltage_values : List ℚ)
    (load_sections : List String) (load_parameter_names : List String) (load_values : List ℚ)
    (pv_sections : List String) (pv_parameter_names : List String) (pv_values : List ℚ)
    (output_names : List String) (output_nodes : List String)
    (write_result : String := "False") : Except Unit (List Event × List PyVal) := do
  let voltages := _input_voltages voltage_names voltage_values
  let loads := if load_sections.length > 0 then
      _input_loads load_sections load_parameter_names load_values
    else []
  let pvs := if pv_sections.length > 0 then
      _input_pvs pv_sections pv_parameter_names pv_values
    else []
  let wr := write_result == "True" || write_result == "true" || write_result == "1"
  let vEvs ← _set_voltages env voltages
  let lRes := if loads.isEmpty then Except.ok [] else _add_loads env loads
  let lEvs ← lRes
  let pRes := if pvs.isEmpty then Except.ok [] else _add_pvs pvs
  let pEvs ← pRes
  let wEvs := if wr then (_write_results model_filename).1 else []
  let outs := _output_values env output_nodes output_names (PyVal.int 0)
  Except.ok (Event.openModel model_filename :: vEvs ++ lEvs ++ pEvs ++
    Event.loadFlowRun :: wEvs ++ outs.1, outs.2)

/-- Model of `load_allocation(values)`: build the per-phase demand meter, list the
networks, set the demand on `networks[0]`, set the three source operating
voltages of `networks[0]` (V to kV), and run the allocation on
`[networks[0]]`. -/
def load_allocation (env : CymEnv) (values : List (String × ℚ)) :
    Except Unit (List Event × Meter) := do
  let pA ← dictGet values "P_A"
  let qA ← dictGet values "Q_A"
  let pB ← dictGet values "P_B"
  let qB ← dictGet values "Q_B"
  let pC ← dictGet values "P_C"
  let qC ← dictGet values "Q_C"
  let demand : Meter := {
    IsTotalDemand := false
    DemandA := { Value1 := pA, Value2 := qA }
    DemandB := { Value1 := pB, Value2 := qB }
    DemandC := { Value1 := pC, Value2 := qC }
    LoadValueType := "KW_KVAR" }
  match env.listNetworks with
  | [] => Except.error ()
  | n0 :: _ => do
    let vA ← dictGet values "VMAG_A"
    let vB ← dictGet values "VMAG_B"
    let vC ← dictGet values "VMAG_C"
    Except.ok ([Event.listNetworksEv, Event.setDemand n0 demand,
      Event.setValueTopo (vA / 1000)
        "Sources[0].EquivalentSourceModels[0].EquivalentSource.OperatingVoltage1" n0,
      Event.setValueTopo (vB / 1000)
        "Sources[0].EquivalentSourceModels[0].EquivalentSource.OperatingVoltage2" n0,
      Event.setValueTopo (vC / 1000)
        "Sources[0].EquivalentSourceModels[0].EquivalentSource.OperatingVoltage3" n0,
      Event.loadAllocRun [n0]], demand)

/-- The cast applied by `get_voltage` / `get_overload` / `get_load` /
`get_distance` and the `distance` column of `list_nodes`:
`lambda x: None if x is '' else float(x)`. -/
def castFloat (env : CymEnv) (x : PyVal) : Except Unit PyVal :=
  if x = PyVal.str "" then Except.ok PyVal.none
  else do
    let q ← pyFloat env x
    Except.ok (PyVal.float q)

/-- The `latitude` cast of `list_nodes`:
`lambda x: None if x is '' else float(x) / (1.26 * 100000)`. -/
def listNodes_castLatitude (env : CymEnv) (x : PyVal) : Except Unit PyVal :=
  if x = PyVal.str "" then Except.ok PyVal.none
  else do
    let q ← pyFloat env x
    Except.ok (PyVal.float (q / (1.26 * 100000)))

/-- The `longitude` cast of `list_nodes`:
`lambda x: None if x is '' else float(x) / (100000)`. -/
def listNodes_castLongitude (env : CymEnv) (x : PyVal) : Except Unit PyVal :=
  if x = PyVal.str "" then Except.ok PyVal.none
  else do
    let q ← pyFloat env x
    Except.ok (PyVal.float (q / 100000))

/-- The `latitude` cast of `get_coordinates`:
`lambda x: None if x is '' else float(x) / (1.26 * 100000)`. -/
def getCoordinates_castLatitude (env : CymEnv) (x : PyVal) : Except Unit PyVal :=
  if x = PyVal.str "" then Except.ok PyVal.none
  else do
    let q ← pyFloat env x
    Except.ok (PyVal.float (q / (1.26 * 100000)))

/-- The `longitude` cast of `get_coordinates`:
`lambda x: None if x is '' else float(x) / (100000)`. -/
def getCoordinates_castLongitude (env : CymEnv) (x : PyVal) : Except Unit PyVal :=
  if x = PyVal.str "" then Except.ok PyVal.none
  else do
    let q ← pyFloat env x
    Except.ok (PyVal.float (q / 100000))

/-- One iteration of the `get_voltage` loop: read the identifying columns
from the original frame row `orig` (`itertuples`), query the three phase
voltages, and write them into the result row `r` (`.loc` assignment). -/
def getVoltageRow (env : CymEnv) (is_node : Bool) (orig r : Row) :
    Except Unit (List Event × Row) :=
  if is_node = false then do
    let dn ← rowGet orig "device_number"
    let dtv ← rowGet orig "device_type_id"
    let dt ← pyToInt dtv
    let vA ← env.queryInfoDevice "VpuA" dn dt
    let vB ← env.queryInfoDevice "VpuB" dn dt
    let vC ← env.queryInfoDevice "VpuC" dn dt
    Except.ok ([Event.queryDevice "VpuA" dn dt, Event.queryDevice "VpuB" dn dt,
        Event.queryDevice "VpuC" dn dt],
      rowSet (rowSet (rowSet r "voltage_A" vA) "voltage_B" vB) "voltage_C" vC)
  else do
    let nid ← rowGet orig "node_id"
    let vA ← env.queryInfoNode "VpuA" nid
    let vB ← env.queryInfoNode "VpuB" nid
    let vC ← env.queryInfoNode "VpuC" nid
    Except.ok ([Event.queryNode "VpuA" nid, Event.queryNode "VpuB" nid,
        Event.queryNode "VpuC" nid],
      rowSet (rowSet (rowSet r "voltage_A" vA) "voltage_B" vB) "voltage_C" vC)

/-- The `for value in frame.itertuples()` loop of `get_voltage`, zipping
original rows with result rows. -/
def getVoltageLoop (env : CymEnv) (is_node : Bool) :
    List (Row × Row) → Except Unit (List Event × List Row)
  | [] => Except.ok ([], [])
  | (orig, r) :: rest => do
    let head ← getVoltageRow env is_node orig r
    let tail ← getVoltageLoop env is_node rest
    Except.ok (head.1 ++ tail.1, head.2 :: tail.2)

/-- Model of `get_voltage(frame, is_node=False)`: copy the frame, reset the three
voltage columns to `0`, query each row's per-phase voltages, and cast the
result columns with `None if x is '' else float(x)`. -/
def get_voltage (env : CymEnv) (frame : Frame) (is_node : Bool := false) :
    Except Unit (List Event × Frame) := do
  let voltage := addZeroCol (addZeroCol (addZeroCol frame "voltage_A") "voltage_B") "voltage_C"
  let looped ← getVoltageLoop env is_node (List.zip frame voltage)
  let f1 ← applyCol (castFloat env) "voltage_A" looped.2
  let f2 ← applyCol (castFloat env) "voltage_B" f1
  let f3 ← applyCol (castFloat env) "voltage_C" f2
  Except.ok (looped.1, f3)

/-- One iteration of the `get_overload` loop. -/
def getOverloadRow (env : CymEnv) (orig r : Row) : Except Unit (List Event × Row) := do
  let dn ← rowGet orig "device_number"
  let dtv ← rowGet orig "device_type_id"
  let dt ← pyToInt dtv
  let oA ← env.queryInfoDevice "OverloadAmpsA" dn dt
  let oB ← env.queryInfoDevice "OverloadAmpsB" dn dt
  let oC ← env.queryInfoDevice "OverloadAmpsC" dn dt
  Except.ok ([Event.queryDevice "OverloadAmpsA" dn dt, Event.queryDevice "OverloadAmpsB" dn dt,
      Event.queryDevice "OverloadAmpsC" dn dt],
    rowSet (rowSet (rowSet r "overload_A" oA) "overload_B" oB) "overload_C" oC)

/-- The `for device in devices.itertuples()` loop of `get_overload`. -/
def getOverloadLoop (env : CymEnv) :
    List (Row × Row) → Except Unit (List Event × List Row)
  | [] => Except.ok ([], [])
  | (orig, r) :: rest => do
    let head ← getOverloadRow env orig r
    let tail ← getOverloadLoop env rest
    Except.ok (head.1 ++ tail.1, head.2 :: tail.2)

/-- Model of `get_overload(devices)`. -/
def get_overload (env : CymEnv) (devices : Frame) : Except Unit (List Event × Frame) := do
  let overload := addZeroCol (addZeroCol (addZeroCol devices "overload_A") "overload_B") "overload_C"
  let looped ← getOverloadLoop env (List.zip devices overload)
  let f1 ← applyCol (castFloat env) "overload_A" looped.2
  let f2 ← applyCol (castFloat env) "overload_B" f1
  let f3 ← applyCol (castFloat env) "overload_C" f2
  Except.ok (looped.1, f3)

/-- One iteration of the `get_load` loop: query the eight per-phase and
total load quantities. -/
def getLoadRow (env : CymEnv) (orig r : Row) : Except Unit (List Event × Row) := do
  let dn ← rowGet orig "device_number"
  let dtv ← rowGet orig "device_type_id"
  let dt ← pyToInt dtv
  let mwa ← env.queryInfoDevice "MWA" dn dt
  let mwb ← env.queryInfoDevice "MWB" dn dt
  let mwc ← env.queryInfoDevice "MWC" dn dt
  let mwtot ← env.queryInfoDevice "MWTOT" dn dt
  let mva ← env.queryInfoDevice "MVARA" dn dt
  let mvb ← env.queryInfoDevice "MVARB" dn dt
  let mvc ← env.queryInfoDevice "MVARC" dn dt
  let mvtot ← env.queryInfoDevice "MVARTOT" dn dt
  Except.ok ([Event.queryDevice "MWA" dn dt, Event.queryDevice "MWB" dn dt,
      Event.queryDevice "MWC" dn dt, Event.queryDevice "MWTOT" dn dt,
      Event.queryDevice "MVARA" dn dt, Event.queryDevice "MVARB" dn dt,
      Event.queryDevice "MVARC" dn dt, Event.queryDevice "MVARTOT" dn dt],
    rowSet (rowSet (rowSet (rowSet (rowSet (rowSet (rowSet (rowSet r
      "MWA" mwa) "MWB" mwb) "MWC" mwc) "MWTOT" mwtot)
      "MVARA" mva) "MVARB" mvb) "MVARC" mvc) "MVARTOT" mvtot)

/-- The `for device in devices.itertuples()` loop of `get_load`. -/
def getLoadLoop (env : CymEnv) :
    List (Row × Row) → Except Unit (List Event × List Row)
  | [] => Except.ok ([], [])
  | (orig, r) :: rest => do
    let head ← getLoadRow env orig r
    let tail ← getLoadLoop env rest
    Except.ok (head.1 ++ tail.1, head.2 :: tail.2)

/-- Model of `get_load(devices)`. -/
def get_load (env : CymEnv) (devices : Frame) : Except Unit (List Event × Frame) := do
  let load := addZeroCol (addZeroCol (addZeroCol (addZeroCol (addZeroCol (addZeroCol
    (addZeroCol (addZeroCol devices "MWA") "MWB") "MWC") "MWTOT")
    "MVARA") "MVARB") "MVARC") "MVARTOT"
  let looped ← getLoadLoop env (List.zip devices load)
  let f1 ← applyCol (castFloat env) "MWA" looped.2
  let f2 ← applyCol (castFloat env) "MWB" f1
  let f3 ← applyCol (castFloat env) "MWC" f2
  let f4 ← applyCol (castFloat env) "MWTOT" f3
  let f5 ← applyCol (castFloat env) "MVARA" f4
  let f6 ← applyCol (castFloat env) "MVARB" f5
  let f7 ← applyCol (castFloat env) "MVARC" f6
  let f8 ← applyCol (castFloat env) "MVARTOT" f7
  Except.ok (looped.1, f8)

/-- One iteration of the `get_distance` loop. -/
def getDistanceRow (env : CymEnv) (orig r : Row) : Except Unit (List Event × Row) := do
  let dn ← rowGet orig "device_number"
  let dtv ← rowGet orig "device_type_id"
  let dt ← pyToInt dtv
  let d ← env.queryInfoDevice "Distance" dn dt
  Except.ok ([Event.queryDevice "Distance" dn dt], rowSet r "distance" d)

/-- The `for device in devices.itertuples()` loop of `get_distance`. -/
def getDistanceLoop (env : CymEnv) :
    List (Row × Row) → Except Unit (List Event × List Row)
  | [] => Except.ok ([], [])
  | (orig, r) :: rest => do
    let head ← getDistanceRow env orig r
    let tail ← getDistanceLoop env rest
    Except.ok (head.1 ++ tail.1, head.2 :: tail.2)

/-- Model of `get_distance(devices)`. -/
def get_distance (env : CymEnv) (devices : Frame) : Except Unit (List Event × Frame) := do
  let distance := addZeroCol devices "distance"
  let looped ← getDistanceLoop env (List.zip devices distance)
  let f1 ← applyCol (castFloat env) "distance" looped.2
  Except.ok (looped.1, f1)

/-- One iteration of the `get_coordinates` loop: query `CoordY` into
`latitude`, `CoordX` into `longitude`, and `SectionId` into `section_id`. -/
def getCoordinatesRow (env : CymEnv) (orig r : Row) : Except Unit (List Event × Row) := do
  let dn ← rowGet orig "device_number"
  let dtv ← rowGet orig "device_type_id"
  let dt ← pyToInt dtv
  let la ← env.queryInfoDevice "CoordY" dn dt
  let lo ← env.queryInfoDevice "CoordX" dn dt
  let sid ← env.queryInfoDevice "SectionId" dn dt
  Except.ok ([Event.queryDevice "CoordY" dn dt, Event.queryDevice "CoordX" dn dt,
      Event.queryDevice "SectionId" dn dt],
    rowSet (rowSet (rowSet r "latitude" la) "longitude" lo) "section_id" sid)

/-- The `for device in devices.itertuples()` loop of `get_coordinates`. -/
def getCoordinatesLoop (env : CymEnv) :
    List (Row × Row) → Except Unit (List Event × List Row)
  | [] => Except.ok ([], [])
  | (orig, r) :: rest => do
    let head ← getCoordinatesRow env orig r
    let tail ← getCoordinatesLoop env rest
    Except.ok (head.1 ++ tail.1, head.2 :: tail.2)

/-- Model of `get_coordinates(devices)`: reset `latitude`, `longitude`, `section_id`,
query each device's coordinates, and cast latitude by
`float(x) / (1.26 * 100000)` and longitude by `float(x) / (100000)`
(empty string to `None`); `section_id` is left uncast. -/
def get_coordinates (env : CymEnv) (devices : Frame) : Except Unit (List Event × Frame) := do
  let coordinates := addZeroCol (addZeroCol (addZeroCol devices "latitude") "longitude") "section_id"
  let looped ← getCoordinatesLoop env (List.zip devices coordinates)
  let f1 ← applyCol (getCoordinates_castLatitude env) "latitude" looped.2
  let f2 ← applyCol (getCoordinates_castLongitude env) "longitude" f1
  Except.ok (looped.1, f2)

/-- The `.ID` attribute access of `list_nodes`
(`nodes['node_object'].apply(lambda x: x.ID)`): only a node object has it. -/
def objID (env : CymEnv) : PyVal → Except Unit PyVal
  | .obj h => Except.ok (env.nodeID h)
  | _ => Except.error ()

/-- Build the `node_id` column of `list_nodes` from the `node_object`
column. -/
def nodeIdCol (env : CymEnv) : Frame → Except Unit Frame
  | [] => Except.ok []
  | r :: rest => do
    let v ← rowGet r "node_object"
    let idv ← objID env v
    let tail ← nodeIdCol env rest
    Except.ok (rowSet r "node_id" idv :: tail)

/-- One iteration of the `list_nodes` loop: query `SectionId`, `CoordY`,
`CoordX` and `Distance` for the row's `node_id`. -/
def listNodesRow (env : CymEnv) (r : Row) : Except Unit (List Event × Row) := do
  let nid ← rowGet r "node_id"
  let s ← env.queryInfoNode "SectionId" nid
  let la ← env.queryInfoNode "CoordY" nid
  let lo ← env.queryInfoNode "CoordX" nid
  let d ← env.queryInfoNode "Distance" nid
  Except.ok ([Event.queryNode "SectionId" nid, Event.queryNode "CoordY" nid,
      Event.queryNode "CoordX" nid, Event.queryNode "Distance" nid],
    rowSet (rowSet (rowSet (rowSet r "section_id" s) "latitude" la) "longitude" lo) "distance" d)

/-- The `for node in nodes.itertuples()` loop of `list_nodes`. -/
def listNodesLoop (env : CymEnv) : Frame → Except Unit (List Event × List Row)
  | [] => Except.ok ([], [])
  | r :: rest => do
    let head ← listNodesRow env r
    let tail ← listNodesLoop env rest
    Except.ok (head.1 ++ tail.1, head.2 :: tail.2)

/-- Model of `list_nodes()`: list the nodes, build the `node_object` and `node_id`
columns, reset `section_id` / `latitude` / `longitude` / `distance`, query
them per node, and cast latitude by `float(x) / (1.26 * 100000)`, longitude
by `float(x) / (100000)` and distance by `float(x)` (empty string to
`None`). -/
def list_nodes (env : CymEnv) : Except Unit (List Event × Frame) := do
  let rows0 : Frame := env.listNodes.map (fun h => [("node_object", PyVal.obj h)])
  let rows1 ← nodeIdCol env rows0
  let rows2 := addZeroCol (addZeroCol (addZeroCol (addZeroCol rows1 "section_id") "latitude") "longitude") "distance"
  let looped ← listNodesLoop env rows2
  let f1 ← applyCol (listNodes_castLatitude env) "latitude" looped.2
  let f2 ← applyCol (listNodes_castLongitude env) "longitude" f1
  let f3 ← applyCol (castFloat env) "distance" f2
  Except.ok (Event.listNodesEv :: looped.1, f3)

/-- Specification predicate: `out` has the same rows as `frame`, in order,
each row extended on the right by exactly the result columns `cs`. -/
def framesShaped (frame out : Frame) (cs : List String) : Prop :=
  out.length = frame.length ∧
  ∀ (i : ℕ) (r : Row), frame[i]? = some r →
    ∃ s, rowKeys s = cs ∧ out[i]? = some (r ++ s)

/-- Test oracle for concrete witnesses: one network (handle 7), two nodes,
every attribute query returns the float `1`. -/
def envOkW : CymEnv := {
  listNetworks := [7]
  listNodes := [1, 2]
  nodeID := fun h => PyVal.str ("N" ++ toString h)
  queryInfoDevice := fun _ _ _ => Except.ok (PyVal.float 1)
  queryInfoNode := fun _ _ => Except.ok (PyVal.float 1)
  parseFloat := fun _ => Option.none }

/-- Test oracle whose every attribute query raises. -/
def envErrW : CymEnv := { envOkW with
  queryInfoDevice := fun _ _ _ => Except.error ()
  queryInfoNode := fun _ _ => Except.error () }

/-- Test oracle answering the phase query with the two-phase string "AB". -/
def envPhaseW : CymEnv := { envOkW with
  queryInfoDevice := fun attr _ _ =>
    if attr == "Phase" then Except.ok (PyVal.str "AB") else Except.ok (PyVal.float 1) }

/-- Test oracle that parses the string "126000" as the rational 126000. -/
def envParseW : CymEnv := { envOkW with
  parseFloat := fun s => if s == "126000" then some 126000 else Option.none }

theorem except_bind_ok {α β : Type} {x : Except Unit α} {f : α → Except Unit β} {b : β}
    (h : (x >>= f) = Except.ok b) : ∃ a, x = Except.ok a ∧ f a = Except.ok b := by
  cases x with
  | ok a => exact ⟨a, rfl, h⟩
  | error e => simp [Bind.bind, Except.bind] at h

theorem rowHas_append (r s : Row) (c : String) :
    rowHas (r ++ s) c = (rowHas r c || rowHas s c) := by
  unfold rowHas
  exact List.any_append

theorem find?_eq_none_of_not_has {r : Row} {c : String} (h : rowHas r c = false) :
    r.find? (fun p => p.1 == c) = Option.none := by
  rw [List.find?_eq_none]
  intro x hx hpx
  have hany : r.any (fun p => p.1 == c) = true := List.any_eq_true.mpr ⟨x, hx, hpx⟩
  unfold rowHas at h
  rw [h] at hany
  cases hany

theorem rowGet_append {r : Row} {c : String} (s : Row) (h : rowHas r c = false) :
    rowGet (r ++ s) c = rowGet s c := by
  unfold rowGet
  rw [List.find?_append, find?_eq_none_of_not_has h]
  rfl

theorem map_id_of_not_has {r : Row} {c : String} (v : PyVal) (h : rowHas r c = false) :
    r.map (fun p => if p.1 == c then (c, v) else p) = r := by
  have hall : ∀ p ∈ r, (p.1 == c) = false := by
    intro p hp
    by_contra hne
    have : (p.1 == c) = true := by
      cases hb : (p.1 == c) with
      | true => rfl
      | false => exact absurd hb hne
    have hany : r.any (fun p => p.1 == c) = true := List.any_eq_true.mpr ⟨p, hp, this⟩
    unfold rowHas at h
    rw [h] at hany
    cases hany
  calc r.map (fun p => if p.1 == c then (c, v) else p) = r.map id := by
        apply List.map_congr_left
        intro p hp
        rw [hall p hp]
        rfl
    _ = r := List.map_id r

theorem rowSet_append {r : Row} {c : String} (s : Row) (v : PyVal)
    (h : rowHas r c = false) : rowSet (r ++ s) c v = r ++ rowSet s c v := by
  unfold rowSet
  have hany : (r ++ s).any (fun p => p.1 == c) = s.any (fun p => p.1 == c) := by
    rw [List.any_append]
    unfold rowHas at h
    rw [h, Bool.false_or]
  rw [hany]
  cases hs : s.any (fun p => p.1 == c) with
  | true =>
    rw [if_pos rfl, if_pos rfl, List.map_append, map_id_of_not_has v h]
  | false =>
    rw [if_neg (by simp), if_neg (by simp), List.append_assoc]

theorem rowSet_fresh {r : Row} {c : String} (v : PyVal) (h : rowHas r c = false) :
    rowSet r c v = r ++ [(c, v)] := by
  have h2 := rowSet_append (r := r) (c := c) [] v h
  rw [List.append_nil] at h2
  exact h2

theorem applyCol_shape (f : PyVal → Except Unit PyVal) (c : String) :
    ∀ (fr out : Frame), applyCol f c fr = Except.ok out →
    out.length = fr.length ∧
    ∀ (i : ℕ) (r : Row), fr[i]? = some r → ∃ v v2, rowGet r c = Except.ok v ∧ f v = Except.ok v2 ∧
      out[i]? = some (rowSet r c v2) := by
  intro fr
  induction fr with
  | nil =>
    intro out h
    unfold applyCol at h
    injection h with h
    subst h
    exact ⟨rfl, by intro i r hr; simp at hr⟩
  | cons r rest ih =>
    intro out h
    unfold applyCol at h
    obtain ⟨v, hv, h⟩ := except_bind_ok h
    obtain ⟨v2, hv2, h⟩ := except_bind_ok h
    obtain ⟨tail, htail, h⟩ := except_bind_ok h
    injection h with h
    subst h
    obtain ⟨hlen, hidx⟩ := ih tail htail
    refine ⟨by simp [hlen], ?_⟩
    intro i rr hr
    cases i with
    | zero =>
      simp at hr
      subst hr
      exact ⟨v, v2, hv, hv2, by simp⟩
    | succ n =>
      simp only [List.getElem?_cons_succ] at hr ⊢
      exact hidx n rr hr

theorem zip_getElem? {α β : Type} :
    ∀ (l1 : List α) (l2 : List β) (i : ℕ) (a : α) (b : β),
    l1[i]? = some a → l2[i]? = some b → (List.zip l1 l2)[i]? = some (a, b) := by
  intro l1
  induction l1 with
  | nil => intro l2 i a b h; simp at h
  | cons x xs ih =>
    intro l2 i a b h1 h2
    cases l2 with
    | nil => simp at h2
    | cons y ys =>
      cases i with
      | zero =>
        simp at h1 h2
        subst h1
        subst h2
        simp [List.zip]
      | succ n =>
        simp at h1 h2 ⊢
        exact ih ys n a b h1 h2

theorem getVoltageRow_shape (env : CymEnv) (is_node : Bool) (orig r : Row)
    (evs : List Event) (r2 : Row)
    (h : getVoltageRow env is_node orig r = Except.ok (evs, r2)) :
    ∃ vA vB vC, r2 = rowSet (rowSet (rowSet r "voltage_A" vA) "voltage_B" vB) "voltage_C" vC := by
  unfold getVoltageRow at h
  cases is_node with
  | false =>
    rw [if_pos rfl] at h
    obtain ⟨dn, hdn, h⟩ := except_bind_ok h
    obtain ⟨dtv, hdtv, h⟩ := except_bind_ok h
    obtain ⟨dt, hdt, h⟩ := except_bind_ok h
    obtain ⟨vA, hA, h⟩ := except_bind_ok h
    obtain ⟨vB, hB, h⟩ := except_bind_ok h
    obtain ⟨vC, hC, h⟩ := except_bind_ok h
    injection h with h
    injection h with h1 h2
    exact ⟨vA, vB, vC, h2.symm⟩
  | true =>
    rw [if_neg (by simp)] at h
    obtain ⟨nid, hnid, h⟩ := except_bind_ok h
    obtain ⟨vA, hA, h⟩ := except_bind_ok h
    obtain ⟨vB, hB, h⟩ := except_bind_ok h
    obtain ⟨vC, hC, h⟩ := except_bind_ok h
    injection h with h
    injection h with h1 h2
    exact ⟨vA, vB, vC, h2.symm⟩

theorem getVoltageLoop_shape (env : CymEnv) (is_node : Bool) :
    ∀ (pairs : List (Row × Row)) (evs : List Event) (rows : List Row),
    getVoltageLoop env is_node pairs = Except.ok (evs, rows) →
    rows.length = pairs.length ∧
    ∀ (i : ℕ) (o z : Row), pairs[i]? = some (o, z) → ∃ evs2 r2,
      getVoltageRow env is_node o z = Except.ok (evs2, r2) ∧ rows[i]? = some r2 := by
  intro pairs
  induction pairs with
  | nil =>
    intro evs rows h
    unfold getVoltageLoop at h
    injection h with h
    injection h with h1 h2
    subst h2
    exact ⟨rfl, by intro i o z hr; simp at hr⟩
  | cons p rest ih =>
    intro evs rows h
    obtain ⟨o, z⟩ := p
    unfold getVoltageLoop at h
    obtain ⟨head, hhead, h⟩ := except_bind_ok h
    obtain ⟨tail, htail, h⟩ := except_bind_ok h
    injection h with h
    injection h with h1 h2
    subst h2
    obtain ⟨hlen, hidx⟩ := ih tail.1 tail.2 htail
    refine ⟨by simp [hlen], ?_⟩
    intro i oo zz hr
    cases i with
    | zero =>
      simp at hr
      obtain ⟨ho, hz⟩ := hr
      subst ho
      subst hz
      exact ⟨head.1, head.2, by rw [hhead], by simp⟩
    | succ n =>
      simp at hr ⊢
      exact hidx n oo zz hr

theorem rowHas_true_iff_mem_keys (r : Row) (c : String) :
    rowHas r c = true ↔ c ∈ rowKeys r := by
  unfold rowHas rowKeys
  rw [List.any_eq_true]
  constructor
  · rintro ⟨p, hp, hpc⟩
    rw [List.mem_map]
    exact ⟨p, hp, beq_iff_eq.mp hpc⟩
  · intro hm
    obtain ⟨p, hp, hpc⟩ := List.mem_map.mp hm
    exact ⟨p, hp, beq_iff_eq.mpr hpc⟩

theorem rowKeys_rowSet_of_has (s : Row) (c : String) (v : PyVal)
    (h : rowHas s c = true) : rowKeys (rowSet s c v) = rowKeys s := by
  unfold rowSet
  unfold rowHas at h
  rw [if_pos h]
  unfold rowKeys
  rw [List.map_map]
  apply List.map_congr_left
  intro p hp
  by_cases hc : (p.1 == c) = true
  · simp only [Function.comp_apply, if_pos hc]
    exact (beq_iff_eq.mp hc).symm
  · simp only [Function.comp_apply, if_neg hc]

theorem rowSet_append_keys {r s : Row} {c : String} (v : PyVal)
    (hfr : rowHas r c = false) (hin : c ∈ rowKeys s) :
    rowSet (r ++ s) c v = r ++ rowSet s c v ∧ rowKeys (rowSet s c v) = rowKeys s :=
  ⟨rowSet_append s v hfr,
   rowKeys_rowSet_of_has s c v ((rowHas_true_iff_mem_keys s c).mpr hin)⟩

theorem applyCol_keeps_shape (f : PyVal → Except Unit PyVal) (c : String)
    (cs : List String) (frame mid out : Frame)
    (hc : c ∈ cs)
    (hfresh : ∀ r ∈ frame, ∀ c2 ∈ cs, rowHas r c2 = false)
    (hsh : framesShaped frame mid cs)
    (happ : applyCol f c mid = Except.ok out) : framesShaped frame out cs := by
  obtain ⟨hlen, hidx⟩ := hsh
  obtain ⟨hlen2, hidx2⟩ := applyCol_shape f c mid out happ
  refine ⟨by rw [hlen2, hlen], ?_⟩
  intro i r hr
  obtain ⟨s, hkeys, hmid⟩ := hidx i r hr
  obtain ⟨v, v2, hv, hv2, hout⟩ := hidx2 i (r ++ s) hmid
  have hfr : rowHas r c = false := hfresh r (List.getElem?_mem hr) c hc
  have hin : c ∈ rowKeys s := by rw [hkeys]; exact hc
  obtain ⟨hset, hk⟩ := rowSet_append_keys v2 hfr hin
  refine ⟨rowSet s c v2, ?_, ?_⟩
  · rw [hk, hkeys]
  · rw [hout, hset]

theorem foldl_rowSet_fresh :
    ∀ (updates : List (String × PyVal)) (r : Row),
    (∀ u ∈ updates, rowHas r u.1 = false) →
    (updates.map Prod.fst).Nodup →
    updates.foldl (fun acc u => rowSet acc u.1 u.2) r = r ++ updates := by
  intro updates
  induction updates with
  | nil => intro r _ _; simp
  | cons u us ih =>
    intro r hfresh hnodup
    have hu : rowHas r u.1 = false := hfresh u (by simp)
    have hstep : rowSet r u.1 u.2 = r ++ [u] := by
      rw [rowSet_fresh u.2 hu]
    have hfresh2 : ∀ w ∈ us, rowHas (r ++ [u]) w.1 = false := by
      intro w hw
      rw [rowHas_append]
      rw [hfresh w (by simp [hw])]
      have hne : ¬ w.1 = u.1 := by
        intro hq
        rw [List.map_cons, List.nodup_cons] at hnodup
        exact hnodup.1 (hq ▸ List.mem_map_of_mem Prod.fst hw)
      have hne2 : ¬ u.1 = w.1 := fun hq => hne hq.symm
      simp [rowHas, hne2]
    have hnodup2 : (us.map Prod.fst).Nodup := by
      rw [List.map_cons, List.nodup_cons] at hnodup
      exact hnodup.2
    calc (u :: us).foldl (fun acc w => rowSet acc w.1 w.2) r
        = us.foldl (fun acc w => rowSet acc w.1 w.2) (rowSet r u.1 u.2) := by rfl
      _ = us.foldl (fun acc w => rowSet acc w.1 w.2) (r ++ [u]) := by rw [hstep]
      _ = (r ++ [u]) ++ us := ih (r ++ [u]) hfresh2 hnodup2
      _ = r ++ (u :: us) := by simp

theorem foldl_rowSet_shape :
    ∀ (updates : List (String × PyVal)) (s : Row) (r : Row) (cs : List String),
    rowKeys s = cs →
    (∀ u ∈ updates, u.1 ∈ cs) →
    (∀ u ∈ updates, rowHas r u.1 = false) →
    ∃ s2, rowKeys s2 = cs ∧
      updates.foldl (fun acc u => rowSet acc u.1 u.2) (r ++ s) = r ++ s2 := by
  intro updates
  induction updates with
  | nil => intro s r cs hkeys _ _; exact ⟨s, hkeys, by simp⟩
  | cons u us ih =>
    intro s r cs hkeys hmem hfresh
    have hin : u.1 ∈ rowKeys s := by rw [hkeys]; exact hmem u (by simp)
    obtain ⟨hset, hk⟩ := rowSet_append_keys u.2 (hfresh u (by simp)) hin
    have hkeys2 : rowKeys (rowSet s u.1 u.2) = cs := by rw [hk, hkeys]
    obtain ⟨s2, hs2, hfold⟩ := ih (rowSet s u.1 u.2) r cs hkeys2
      (fun w hw => hmem w (by simp [hw])) (fun w hw => hfresh w (by simp [hw]))
    refine ⟨s2, hs2, ?_⟩
    calc (u :: us).foldl (fun acc w => rowSet acc w.1 w.2) (r ++ s)
        = us.foldl (fun acc w => rowSet acc w.1 w.2) (rowSet (r ++ s) u.1 u.2) := by rfl
      _ = us.foldl (fun acc w => rowSet acc w.1 w.2) (r ++ rowSet s u.1 u.2) := by rw [hset]
      _ = r ++ s2 := hfold

theorem get_voltage_shape (env : CymEnv) (frame : Frame) (is_node : Bool)
    (tr : List Event) (out : Frame)
    (hfresh : ∀ r ∈ frame, ∀ c ∈ ["voltage_A", "voltage_B", "voltage_C"], rowHas r c = false)
    (h : get_voltage env frame is_node = Except.ok (tr, out)) :
    framesShaped frame out ["voltage_A", "voltage_B", "voltage_C"] := by
  unfold get_voltage at h
  obtain ⟨looped, hloop, h⟩ := except_bind_ok h
  obtain ⟨f1, h1, h⟩ := except_bind_ok h
  obtain ⟨f2, h2, h⟩ := except_bind_ok h
  obtain ⟨f3, h3, h⟩ := except_bind_ok h
  injection h with h
  injection h with htr hout
  subst hout
  have hmid : addZeroCol (addZeroCol (addZeroCol frame "voltage_A") "voltage_B") "voltage_C"
      = frame.map (fun r => r ++ [("voltage_A", PyVal.int 0), ("voltage_B", PyVal.int 0),
          ("voltage_C", PyVal.int 0)]) := by
    unfold addZeroCol
    rw [List.map_map, List.map_map]
    apply List.map_congr_left
    intro r hr
    have hf := foldl_rowSet_fresh [("voltage_A", PyVal.int 0), ("voltage_B", PyVal.int 0),
        ("voltage_C", PyVal.int 0)] r
      (by
        intro u hu
        have : u.1 ∈ ["voltage_A", "voltage_B", "voltage_C"] := by
          simp at hu
          rcases hu with h | h | h <;> subst h <;> simp
        exact hfresh r hr u.1 this)
      (by decide)
    calc (rowSet · "voltage_C" (PyVal.int 0)).comp
          ((rowSet · "voltage_B" (PyVal.int 0)).comp (rowSet · "voltage_A" (PyVal.int 0))) r
        = [("voltage_A", PyVal.int 0), ("voltage_B", PyVal.int 0),
            ("voltage_C", PyVal.int 0)].foldl (fun acc u => rowSet acc u.1 u.2) r := by rfl
      _ = r ++ [("voltage_A", PyVal.int 0), ("voltage_B", PyVal.int 0),
            ("voltage_C", PyVal.int 0)] := hf
  rw [hmid] at hloop
  obtain ⟨hlen, hidx⟩ := getVoltageLoop_shape env is_node _ looped.1 looped.2 hloop
  have hshaped : framesShaped frame looped.2 ["voltage_A", "voltage_B", "voltage_C"] := by
    constructor
    · rw [hlen, List.length_zip, List.length_map]
      exact Nat.min_self _
    · intro i r hr
      have hmid2 : (frame.map (fun r => r ++ [("voltage_A", PyVal.int 0), ("voltage_B", PyVal.int 0),
          ("voltage_C", PyVal.int 0)]))[i]? = some (r ++ [("voltage_A", PyVal.int 0),
          ("voltage_B", PyVal.int 0), ("voltage_C", PyVal.int 0)]) := by
        rw [List.getElem?_map, hr]
        rfl
      have hpair := zip_getElem? frame _ i r _ hr hmid2
      obtain ⟨evs2, r2, hrow, hrows⟩ := hidx i r _ hpair
      obtain ⟨vA, vB, vC, hr2⟩ := getVoltageRow_shape env is_node r _ evs2 r2 hrow
      have hfold : rowSet (rowSet (rowSet (r ++ [("voltage_A", PyVal.int 0),
            ("voltage_B", PyVal.int 0), ("voltage_C", PyVal.int 0)]) "voltage_A" vA)
            "voltage_B" vB) "voltage_C" vC
          = [("voltage_A", vA), ("voltage_B", vB), ("voltage_C", vC)].foldl
              (fun acc u => rowSet acc u.1 u.2) (r ++ [("voltage_A", PyVal.int 0),
              ("voltage_B", PyVal.int 0), ("voltage_C", PyVal.int 0)]) := by rfl
      obtain ⟨s2, hs2, hfin⟩ := foldl_rowSet_shape
        [("voltage_A", vA), ("voltage_B", vB), ("voltage_C", vC)]
        [("voltage_A", PyVal.int 0), ("voltage_B", PyVal.int 0), ("voltage_C", PyVal.int 0)]
        r ["voltage_A", "voltage_B", "voltage_C"] (by rfl)
        (by intro u hu; simp at hu; rcases hu with h | h | h <;> subst h <;> simp)
        (by
          intro u hu
          have : u.1 ∈ ["voltage_A", "voltage_B", "voltage_C"] := by
            simp at hu
            rcases hu with h | h | h <;> subst h <;> simp
          exact hfresh r (List.getElem?_mem hr) u.1 this)
      refine ⟨s2, hs2, ?_⟩
      rw [hrows, hr2, hfold, hfin]
  have hA := applyCol_keeps_shape (castFloat env) "voltage_A" _ frame looped.2 f1
    (by simp) hfresh hshaped h1
  have hB := applyCol_keeps_shape (castFloat env) "voltage_B" _ frame f1 f2
    (by simp) hfresh hA h2
  exact applyCol_keeps_shape (castFloat env) "voltage_C" _ frame f2 f3
    (by simp) hfresh hB h3

theorem addZeroCol_getElem? (fr : Frame) (c : String) (i : ℕ) :
    (addZeroCol fr c)[i]? = Option.map (fun r => rowSet r c (PyVal.int 0)) fr[i]? := by
  unfold addZeroCol
  exact List.getElem?_map _ _ _

theorem addZeroCol_length (fr : Frame) (c : String) :
    (addZeroCol fr c).length = fr.length := by
  unfold addZeroCol
  exact List.length_map _ _

theorem getOverloadRow_shape (env : CymEnv) (orig r : Row)
    (evs : List Event) (r2 : Row)
    (h : getOverloadRow env orig r = Except.ok (evs, r2)) :
    ∃ vA vB vC, r2 = rowSet (rowSet (rowSet r "overload_A" vA) "overload_B" vB) "overload_C" vC := by
  unfold getOverloadRow at h
  obtain ⟨dn, hdn, h⟩ := except_bind_ok h
  obtain ⟨dtv, hdtv, h⟩ := except_bind_ok h
  obtain ⟨dt, hdt, h⟩ := except_bind_ok h
  obtain ⟨vA, hvA, h⟩ := except_bind_ok h
  obtain ⟨vB, hvB, h⟩ := except_bind_ok h
  obtain ⟨vC, hvC, h⟩ := except_bind_ok h
  injection h with h
  injection h with h1 h2
  exact ⟨vA, vB, vC, h2.symm⟩

theorem getOverloadLoop_shape (env : CymEnv) :
    ∀ (pairs : List (Row × Row)) (evs : List Event) (rows : List Row),
    getOverloadLoop env pairs = Except.ok (evs, rows) →
    rows.length = pairs.length ∧
    ∀ (i : ℕ) (o z : Row), pairs[i]? = some (o, z) → ∃ evs2 r2,
      getOverloadRow env o z = Except.ok (evs2, r2) ∧ rows[i]? = some r2 := by
  intro pairs
  induction pairs with
  | nil =>
    intro evs rows h
    unfold getOverloadLoop at h
    injection h with h
    injection h with h1 h2
    subst h2
    exact ⟨rfl, by intro i o z hr; simp at hr⟩
  | cons p rest ih =>
    intro evs rows h
    obtain ⟨o, z⟩ := p
    unfold getOverloadLoop at h
    obtain ⟨head, hhead, h⟩ := except_bind_ok h
    obtain ⟨tail, htail, h⟩ := except_bind_ok h
    injection h with h
    injection h with h1 h2
    subst h2
    obtain ⟨hlen, hidx⟩ := ih tail.1 tail.2 htail
    refine ⟨by simp [hlen], ?_⟩
    intro i oo zz hr
    cases i with
    | zero =>
      simp at hr
      obtain ⟨ho, hz⟩ := hr
      subst ho
      subst hz
      exact ⟨head.1, head.2, by rw [hhead], by simp⟩
    | succ n =>
      simp at hr ⊢
      exact hidx n oo zz hr

theorem getLoadRow_shape (env : CymEnv) (orig r : Row)
    (evs : List Event) (r2 : Row)
    (h : getLoadRow env orig r = Except.ok (evs, r2)) :
    ∃ v1 v2 v3 v4 v5 v6 v7 v8, r2 = rowSet (rowSet (rowSet (rowSet (rowSet (rowSet (rowSet (rowSet r "MWA" v1) "MWB" v2) "MWC" v3) "MWTOT" v4) "MVARA" v5) "MVARB" v6) "MVARC" v7) "MVARTOT" v8 := by
  unfold getLoadRow at h
  obtain ⟨dn, hdn, h⟩ := except_bind_ok h
  obtain ⟨dtv, hdtv, h⟩ := except_bind_ok h
  obtain ⟨dt, hdt, h⟩ := except_bind_ok h
  obtain ⟨v1, hv1, h⟩ := except_bind_ok h
  obtain ⟨v2, hv2, h⟩ := except_bind_ok h
  obtain ⟨v3, hv3, h⟩ := except_bind_ok h
  obtain ⟨v4, hv4, h⟩ := except_bind_ok h
  obtain ⟨v5, hv5, h⟩ := except_bind_ok h
  obtain ⟨v6, hv6, h⟩ := except_bind_ok h
  obtain ⟨v7, hv7, h⟩ := except_bind_ok h
  obtain ⟨v8, hv8, h⟩ := except_bind_ok h
  injection h with h
  injection h with h1 h2
  exact ⟨v1, v2, v3, v4, v5, v6, v7, v8, h2.symm⟩

theorem getLoadLoop_shape (env : CymEnv) :
    ∀ (pairs : List (Row × Row)) (evs : List Event) (rows : List Row),
    getLoadLoop env pairs = Except.ok (evs, rows) →
    rows.length = pairs.length ∧
    ∀ (i : ℕ) (o z : Row), pairs[i]? = some (o, z) → ∃ evs2 r2,
      getLoadRow env o z = Except.ok (evs2, r2) ∧ rows[i]? = some r2 := by
  intro pairs
  induction pairs with
  | nil =>
    intro evs rows h
    unfold getLoadLoop at h
    injection h with h
    injection h with h1 h2
    subst h2
    exact ⟨rfl, by intro i o z hr; simp at hr⟩
  | cons p rest ih =>
    intro evs rows h
    obtain ⟨o, z⟩ := p
    unfold getLoadLoop at h
    obtain ⟨head, hhead, h⟩ := except_bind_ok h
    obtain ⟨tail, htail, h⟩ := except_bind_ok h
    injection h with h
    injection h with h1 h2
    subst h2
    obtain ⟨hlen, hidx⟩ := ih tail.1 tail.2 htail
    refine ⟨by simp [hlen], ?_⟩
    intro i oo zz hr
    cases i with
    | zero =>
      simp at hr
      obtain ⟨ho, hz⟩ := hr
      subst ho
      subst hz
      exact ⟨head.1, head.2, by rw [hhead], by simp⟩
    | succ n =>
      simp at hr ⊢
      exact hidx n oo zz hr

theorem getDistanceRow_shape (env : CymEnv) (orig r : Row)
    (evs : List Event) (r2 : Row)
    (h : getDistanceRow env orig r = Except.ok (evs, r2)) :
    ∃ v1, r2 = rowSet r "distance" v1 := by
  unfold getDistanceRow at h
  obtain ⟨dn, hdn, h⟩ := except_bind_ok h
  obtain ⟨dtv, hdtv, h⟩ := except_bind_ok h
  obtain ⟨dt, hdt, h⟩ := except_bind_ok h
  obtain ⟨v1, hv1, h⟩ := except_bind_ok h
  injection h with h
  injection h with h1 h2
  exact ⟨v1, h2.symm⟩

theorem getDistanceLoop_shape (env : CymEnv) :
    ∀ (pairs : List (Row × Row)) (evs : List Event) (rows : List Row),
    getDistanceLoop env pairs = Except.ok (evs, rows) →
    rows.length = pairs.length ∧
    ∀ (i : ℕ) (o z : Row), pairs[i]? = some (o, z) → ∃ evs2 r2,
      getDistanceRow env o z = Except.ok (evs2, r2) ∧ rows[i]? = some r2 := by
  intro pairs
  induction pairs with
  | nil =>
    intro evs rows h
    unfold getDistanceLoop at h
    injection h with h
    injection h with h1 h2
    subst h2
    exact ⟨rfl, by intro i o z hr; simp at hr⟩
  | cons p rest ih =>
    intro evs rows h
    obtain ⟨o, z⟩ := p
    unfold getDistanceLoop at h
    obtain ⟨head, hhead, h⟩ := except_bind_ok h
    obtain ⟨tail, htail, h⟩ := except_bind_ok h
    injection h with h
    injection h with h1 h2
    subst h2
    obtain ⟨hlen, hidx⟩ := ih tail.1 tail.2 htail
    refine ⟨by simp [hlen], ?_⟩
    intro i oo zz hr
    cases i with
    | zero =>
      simp at hr
      obtain ⟨ho, hz⟩ := hr
      subst ho
      subst hz
      exact ⟨head.1, head.2, by rw [hhead], by simp⟩
    | succ n =>
      simp at hr ⊢
      exact hidx n oo zz hr

theorem getCoordinatesRow_shape (env : CymEnv) (orig r : Row)
    (evs : List Event) (r2 : Row)
    (h : getCoordinatesRow env orig r = Except.ok (evs, r2)) :
    ∃ v1 v2 v3, r2 = rowSet (rowSet (rowSet r "latitude" v1) "longitude" v2) "section_id" v3 := by
  unfold getCoordinatesRow at h
  obtain ⟨dn, hdn, h⟩ := except_bind_ok h
  obtain ⟨dtv, hdtv, h⟩ := except_bind_ok h
  obtain ⟨dt, hdt, h⟩ := except_bind_ok h
  obtain ⟨v1, hv1, h⟩ := except_bind_ok h
  obtain ⟨v2, hv2, h⟩ := except_bind_ok h
  obtain ⟨v3, hv3, h⟩ := except_bind_ok h
  injection h with h
  injection h with h1 h2
  exact ⟨v1, v2, v3, h2.symm⟩

theorem getCoordinatesLoop_shape (env : CymEnv) :
    ∀ (pairs : List (Row × Row)) (evs : List Event) (rows : List Row),
    getCoordinatesLoop env pairs = Except.ok (evs, rows) →
    rows.length = pairs.length ∧
    ∀ (i : ℕ) (o z : Row), pairs[i]? = some (o, z) → ∃ evs2 r2,
      getCoordinatesRow env o z = Except.ok (evs2, r2) ∧ rows[i]? = some r2 := by
  intro pairs
  induction pairs with
  | nil =>
    intro evs rows h
    unfold getCoordinatesLoop at h
    injection h with h
    injection h with h1 h2
    subst h2
    exact ⟨rfl, by intro i o z hr; simp at hr⟩
  | cons p rest ih =>
    intro evs rows h
    obtain ⟨o, z⟩ := p
    unfold getCoordinatesLoop at h
    obtain ⟨head, hhead, h⟩ := except_bind_ok h
    obtain ⟨tail, htail, h⟩ := except_bind_ok h
    injection h with h
    injection h with h1 h2
    subst h2
    obtain ⟨hlen, hidx⟩ := ih tail.1 tail.2 htail
    refine ⟨by simp [hlen], ?_⟩
    intro i oo zz hr
    cases i with
    | zero =>
      simp at hr
      obtain ⟨ho, hz⟩ := hr
      subst ho
      subst hz
      exact ⟨head.1, head.2, by rw [hhead], by simp⟩
    | succ n =>
      simp at hr ⊢
      exact hidx n oo zz hr

theorem get_overload_shape (env : CymEnv) (frame : Frame)
    (tr : List Event) (out : Frame)
    (hfresh : ∀ r ∈ frame, ∀ c ∈ ["overload_A", "overload_B", "overload_C"], rowHas r c = false)
    (h : get_overload env frame = Except.ok (tr, out)) :
    framesShaped frame out ["overload_A", "overload_B", "overload_C"] := by
  unfold get_overload at h
  obtain ⟨looped, hloop, h⟩ := except_bind_ok h
  obtain ⟨f1, hc1, h⟩ := except_bind_ok h
  obtain ⟨f2, hc2, h⟩ := except_bind_ok h
  obtain ⟨f3, hc3, h⟩ := except_bind_ok h
  injection h with h
  injection h with htr hout
  subst hout
  obtain ⟨hlen, hidx⟩ := getOverloadLoop_shape env _ looped.1 looped.2 hloop
  have hshaped : framesShaped frame looped.2 ["overload_A", "overload_B", "overload_C"] := by
    constructor
    · rw [hlen, List.length_zip]
      simp [addZeroCol_length]
    · intro i r hr
      have hmem : r ∈ frame := List.getElem?_mem hr
      have hmid2 : (addZeroCol (addZeroCol (addZeroCol frame "overload_A") "overload_B") "overload_C")[i]? = some (rowSet (rowSet (rowSet r "overload_A" (PyVal.int 0)) "overload_B" (PyVal.int 0)) "overload_C" (PyVal.int 0)) := by
        simp only [addZeroCol_getElem?, hr, Option.map_some']
      have hfoldz : rowSet (rowSet (rowSet r "overload_A" (PyVal.int 0)) "overload_B" (PyVal.int 0)) "overload_C" (PyVal.int 0) = r ++ [("overload_A", PyVal.int 0), ("overload_B", PyVal.int 0), ("overload_C", PyVal.int 0)] := by
        calc rowSet (rowSet (rowSet r "overload_A" (PyVal.int 0)) "overload_B" (PyVal.int 0)) "overload_C" (PyVal.int 0)
            = ([("overload_A", PyVal.int 0), ("overload_B", PyVal.int 0), ("overload_C", PyVal.int 0)]).foldl (fun acc u => rowSet acc u.1 u.2) r := by rfl
          _ = r ++ [("overload_A", PyVal.int 0), ("overload_B", PyVal.int 0), ("overload_C", PyVal.int 0)] := foldl_rowSet_fresh [("overload_A", PyVal.int 0), ("overload_B", PyVal.int 0), ("overload_C", PyVal.int 0)] r
              (by
                intro u hu
                have hu1 : u.1 ∈ ["overload_A", "overload_B", "overload_C"] := by
                  simp at hu
                  rcases hu with h | h | h <;> subst h <;> simp
                exact hfresh r hmem u.1 hu1)
              (by decide)
      have hpair := zip_getElem? frame _ i r _ hr hmid2
      obtain ⟨evs2, r2, hrow, hrows⟩ := hidx i r _ hpair
      obtain ⟨vA, vB, vC, hr2⟩ := getOverloadRow_shape env r _ evs2 r2 hrow
      rw [hfoldz] at hr2
      have hfold : rowSet (rowSet (rowSet (r ++ [("overload_A", PyVal.int 0), ("overload_B", PyVal.int 0), ("overload_C", PyVal.int 0)]) "overload_A" vA) "overload_B" vB) "overload_C" vC
          = ([("overload_A", vA), ("overload_B", vB), ("overload_C", vC)]).foldl (fun acc u => rowSet acc u.1 u.2) (r ++ [("overload_A", PyVal.int 0), ("overload_B", PyVal.int 0), ("overload_C", PyVal.int 0)]) := by rfl
      obtain ⟨s2, hs2, hfin⟩ := foldl_rowSet_shape [("overload_A", vA), ("overload_B", vB), ("overload_C", vC)] [("overload_A", PyVal.int 0), ("overload_B", PyVal.int 0), ("overload_C", PyVal.int 0)] r ["overload_A", "overload_B", "overload_C"] (by rfl)
        (by intro u hu; simp at hu; rcases hu with h | h | h <;> subst h <;> simp)
        (by
          intro u hu
          have hu1 : u.1 ∈ ["overload_A", "overload_B", "overload_C"] := by
            simp at hu
            rcases hu with h | h | h <;> subst h <;> simp
          exact hfresh r hmem u.1 hu1)
      refine ⟨s2, hs2, ?_⟩
      rw [hrows, hr2, hfold, hfin]
  have hk1 := applyCol_keeps_shape (castFloat env) "overload_A" _ frame looped.2 f1
    (by simp) hfresh hshaped hc1
  have hk2 := applyCol_keeps_shape (castFloat env) "overload_B" _ frame f1 f2
    (by simp) hfresh hk1 hc2
  have hk3 := applyCol_keeps_shape (castFloat env) "overload_C" _ frame f2 f3
    (by simp) hfresh hk2 hc3
  exact hk3

set_option maxHeartbeats 1600000 in
theorem get_load_shape (env : CymEnv) (frame : Frame)
    (tr : List Event) (out : Frame)
    (hfresh : ∀ r ∈ frame, ∀ c ∈ ["MWA", "MWB", "MWC", "MWTOT", "MVARA", "MVARB", "MVARC", "MVARTOT"], rowHas r c = false)
    (h : get_load env frame = Except.ok (tr, out)) :
    framesShaped frame out ["MWA", "MWB", "MWC", "MWTOT", "MVARA", "MVARB", "MVARC", "MVARTOT"] := by
  unfold get_load at h
  obtain ⟨looped, hloop, h⟩ := except_bind_ok h
  obtain ⟨f1, hc1, h⟩ := except_bind_ok h
  obtain ⟨f2, hc2, h⟩ := except_bind_ok h
  obtain ⟨f3, hc3, h⟩ := except_bind_ok h
  obtain ⟨f4, hc4, h⟩ := except_bind_ok h
  obtain ⟨f5, hc5, h⟩ := except_bind_ok h
  obtain ⟨f6, hc6, h⟩ := except_bind_ok h
  obtain ⟨f7, hc7, h⟩ := except_bind_ok h
  obtain ⟨f8, hc8, h⟩ := except_bind_ok h
  injection h with h
  injection h with htr hout
  subst hout
  obtain ⟨hlen, hidx⟩ := getLoadLoop_shape env _ looped.1 looped.2 hloop
  have hshaped : framesShaped frame looped.2 ["MWA", "MWB", "MWC", "MWTOT", "MVARA", "MVARB", "MVARC", "MVARTOT"] := by
    constructor
    · rw [hlen, List.length_zip]
      simp [addZeroCol_length]
    · intro i r hr
      have hmem : r ∈ frame := List.getElem?_mem hr
      have hmid2 : (addZeroCol (addZeroCol (addZeroCol (addZeroCol (addZeroCol (addZeroCol (addZeroCol (addZeroCol frame "MWA") "MWB") "MWC") "MWTOT") "MVARA") "MVARB") "MVARC") "MVARTOT")[i]? = some (rowSet (rowSet (rowSet (rowSet (rowSet (rowSet (rowSet (rowSet r "MWA" (PyVal.int 0)) "MWB" (PyVal.int 0)) "MWC" (PyVal.int 0)) "MWTOT" (PyVal.int 0)) "MVARA" (PyVal.int 0)) "MVARB" (PyVal.int 0)) "MVARC" (PyVal.int 0)) "MVARTOT" (PyVal.int 0)) := by
        simp only [addZeroCol_getElem?, hr, Option.map_some']
      have hfoldz : rowSet (rowSet (rowSet (rowSet (rowSet (rowSet (rowSet (rowSet r "MWA" (PyVal.int 0)) "MWB" (PyVal.int 0)) "MWC" (PyVal.int 0)) "MWTOT" (PyVal.int 0)) "MVARA" (PyVal.int 0)) "MVARB" (PyVal.int 0)) "MVARC" (PyVal.int 0)) "MVARTOT" (PyVal.int 0) = r ++ [("MWA", PyVal.int 0), ("MWB", PyVal.int 0), ("MWC", PyVal.int 0), ("MWTOT", PyVal.int 0), ("MVARA", PyVal.int 0), ("MVARB", PyVal.int 0), ("MVARC", PyVal.int 0), ("MVARTOT", PyVal.int 0)] := by
        calc rowSet (rowSet (rowSet (rowSet (rowSet (rowSet (rowSet (rowSet r "MWA" (PyVal.int 0)) "MWB" (PyVal.int 0)) "MWC" (PyVal.int 0)) "MWTOT" (PyVal.int 0)) "MVARA" (PyVal.int 0)) "MVARB" (PyVal.int 0)) "MVARC" (PyVal.int 0)) "MVARTOT" (PyVal.int 0)
            = ([("MWA", PyVal.int 0), ("MWB", PyVal.int 0), ("MWC", PyVal.int 0), ("MWTOT", PyVal.int 0), ("MVARA", PyVal.int 0), ("MVARB", PyVal.int 0), ("MVARC", PyVal.int 0), ("MVARTOT", PyVal.int 0)]).foldl (fun acc u => rowSet acc u.1 u.2) r := by rfl
          _ = r ++ [("MWA", PyVal.int 0), ("MWB", PyVal.int 0), ("MWC", PyVal.int 0), ("MWTOT", PyVal.int 0), ("MVARA", PyVal.int 0), ("MVARB", PyVal.int 0), ("MVARC", PyVal.int 0), ("MVARTOT", PyVal.int 0)] := foldl_rowSet_fresh [("MWA", PyVal.int 0), ("MWB", PyVal.int 0), ("MWC", PyVal.int 0), ("MWTOT", PyVal.int 0), ("MVARA", PyVal.int 0), ("MVARB", PyVal.int 0), ("MVARC", PyVal.int 0), ("MVARTOT", PyVal.int 0)] r
              (by
                intro u hu
                have hu1 : u.1 ∈ ["MWA", "MWB", "MWC", "MWTOT", "MVARA", "MVARB", "MVARC", "MVARTOT"] := by
                  simp at hu
                  rcases hu with h | h | h | h | h | h | h | h <;> subst h <;> simp
                exact hfresh r hmem u.1 hu1)
              (by decide)
      have hpair := zip_getElem? frame _ i r _ hr hmid2
      obtain ⟨evs2, r2, hrow, hrows⟩ := hidx i r _ hpair
      obtain ⟨v1, v2, v3, v4, v5, v6, v7, v8, hr2⟩ := getLoadRow_shape env r _ evs2 r2 hrow
      rw [hfoldz] at hr2
      have hfold : rowSet (rowSet (rowSet (rowSet (rowSet (rowSet (rowSet (rowSet (r ++ [("MWA", PyVal.int 0), ("MWB", PyVal.int 0), ("MWC", PyVal.int 0), ("MWTOT", PyVal.int 0), ("MVARA", PyVal.int 0), ("MVARB", PyVal.int 0), ("MVARC", PyVal.int 0), ("MVARTOT", PyVal.int 0)]) "MWA" v1) "MWB" v2) "MWC" v3) "MWTOT" v4) "MVARA" v5) "MVARB" v6) "MVARC" v7) "MVARTOT" v8
          = ([("MWA", v1), ("MWB", v2), ("MWC", v3), ("MWTOT", v4), ("MVARA", v5), ("MVARB", v6), ("MVARC", v7), ("MVARTOT", v8)]).foldl (fun acc u => rowSet acc u.1 u.2) (r ++ [("MWA", PyVal.int 0), ("MWB", PyVal.int 0), ("MWC", PyVal.int 0), ("MWTOT", PyVal.int 0), ("MVARA", PyVal.int 0), ("MVARB", PyVal.int 0), ("MVARC", PyVal.int 0), ("MVARTOT", PyVal.int 0)]) := by rfl
      obtain ⟨s2, hs2, hfin⟩ := foldl_rowSet_shape [("MWA", v1), ("MWB", v2), ("MWC", v3), ("MWTOT", v4), ("MVARA", v5), ("MVARB", v6), ("MVARC", v7), ("MVARTOT", v8)] [("MWA", PyVal.int 0), ("MWB", PyVal.int 0), ("MWC", PyVal.int 0), ("MWTOT", PyVal.int 0), ("MVARA", PyVal.int 0), ("MVARB", PyVal.int 0), ("MVARC", PyVal.int 0), ("MVARTOT", PyVal.int 0)] r ["MWA", "MWB", "MWC", "MWTOT", "MVARA", "MVARB", "MVARC", "MVARTOT"] (by rfl)
        (by intro u hu; simp at hu; rcases hu with h | h | h | h | h | h | h | h <;> subst h <;> simp)
        (by
          intro u hu
          have hu1 : u.1 ∈ ["MWA", "MWB", "MWC", "MWTOT", "MVARA", "MVARB", "MVARC", "MVARTOT"] := by
            simp at hu
            rcases hu with h | h | h | h | h | h | h | h <;> subst h <;> simp
          exact hfresh r hmem u.1 hu1)
      refine ⟨s2, hs2, ?_⟩
      rw [hrows, hr2, hfold, hfin]
  have hk1 := applyCol_keeps_shape (castFloat env) "MWA" _ frame looped.2 f1
    (by simp) hfresh hshaped hc1
  have hk2 := applyCol_keeps_shape (castFloat env) "MWB" _ frame f1 f2
    (by simp) hfresh hk1 hc2
  have hk3 := applyCol_keeps_shape (castFloat env) "MWC" _ frame f2 f3
    (by simp) hfresh hk2 hc3
  have hk4 := applyCol_keeps_shape (castFloat env) "MWTOT" _ frame f3 f4
    (by simp) hfresh hk3 hc4
  have hk5 := applyCol_keeps_shape (castFloat env) "MVARA" _ frame f4 f5
    (by simp) hfresh hk4 hc5
  have hk6 := applyCol_keeps_shape (castFloat env) "MVARB" _ frame f5 f6
    (by simp) hfresh hk5 hc6
  have hk7 := applyCol_keeps_shape (castFloat env) "MVARC" _ frame f6 f7
    (by simp) hfresh hk6 hc7
  have hk8 := applyCol_keeps_shape (castFloat env) "MVARTOT" _ frame f7 f8
    (by simp) hfresh hk7 hc8
  exact hk8

theorem get_distance_shape (env : CymEnv) (frame : Frame)
    (tr : List Event) (out : Frame)
    (hfresh : ∀ r ∈ frame, ∀ c ∈ ["distance"], rowHas r c = false)
    (h : get_distance env frame = Except.ok (tr, out)) :
    framesShaped frame out ["distance"] := by
  unfold get_distance at h
  obtain ⟨looped, hloop, h⟩ := except_bind_ok h
  obtain ⟨f1, hc1, h⟩ := except_bind_ok h
  injection h with h
  injection h with htr hout
  subst hout
  obtain ⟨hlen, hidx⟩ := getDistanceLoop_shape env _ looped.1 looped.2 hloop
  have hshaped : framesShaped frame looped.2 ["distance"] := by
    constructor
    · rw [hlen, List.length_zip]
      simp [addZeroCol_length]
    · intro i r hr
      have hmem : r ∈ frame := List.getElem?_mem hr
      have hmid2 : (addZeroCol frame "distance")[i]? = some (rowSet r "distance" (PyVal.int 0)) := by
        simp only [addZeroCol_getElem?, hr, Option.map_some']
      have hfoldz : rowSet r "distance" (PyVal.int 0) = r ++ [("distance", PyVal.int 0)] := by
        calc rowSet r "distance" (PyVal.int 0)
            = ([("distance", PyVal.int 0)]).foldl (fun acc u => rowSet acc u.1 u.2) r := by rfl
          _ = r ++ [("distance", PyVal.int 0)] := foldl_rowSet_fresh [("distance", PyVal.int 0)] r
              (by
                intro u hu
                have hu1 : u.1 ∈ ["distance"] := by
                  simp at hu
                  subst hu; simp
                exact hfresh r hmem u.1 hu1)
              (by decide)
      have hpair := zip_getElem? frame _ i r _ hr hmid2
      obtain ⟨evs2, r2, hrow, hrows⟩ := hidx i r _ hpair
      obtain ⟨v1, hr2⟩ := getDistanceRow_shape env r _ evs2 r2 hrow
      rw [hfoldz] at hr2
      have hfold : rowSet (r ++ [("distance", PyVal.int 0)]) "distance" v1
          = ([("distance", v1)]).foldl (fun acc u => rowSet acc u.1 u.2) (r ++ [("distance", PyVal.int 0)]) := by rfl
      obtain ⟨s2, hs2, hfin⟩ := foldl_rowSet_shape [("distance", v1)] [("distance", PyVal.int 0)] r ["distance"] (by rfl)
        (by intro u hu; simp at hu; subst hu; simp)
        (by
          intro u hu
          have hu1 : u.1 ∈ ["distance"] := by
            simp at hu
            subst hu; simp
          exact hfresh r hmem u.1 hu1)
      refine ⟨s2, hs2, ?_⟩
      rw [hrows, hr2, hfold, hfin]
  have hk1 := applyCol_keeps_shape (castFloat env) "distance" _ frame looped.2 f1
    (by simp) hfresh hshaped hc1
  exact hk1

theorem get_coordinates_shape (env : CymEnv) (frame : Frame)
    (tr : List Event) (out : Frame)
    (hfresh : ∀ r ∈ frame, ∀ c ∈ ["latitude", "longitude", "section_id"], rowHas r c = false)
    (h : get_coordinates env frame = Except.ok (tr, out)) :
    framesShaped frame out ["latitude", "longitude", "section_id"] := by
  unfold get_coordinates at h
  obtain ⟨looped, hloop, h⟩ := except_bind_ok h
  obtain ⟨f1, hc1, h⟩ := except_bind_ok h
  obtain ⟨f2, hc2, h⟩ := except_bind_ok h
  injection h with h
  injection h with htr hout
  subst hout
  obtain ⟨hlen, hidx⟩ := getCoordinatesLoop_shape env _ looped.1 looped.2 hloop
  have hshaped : framesShaped frame looped.2 ["latitude", "longitude", "section_id"] := by
    constructor
    · rw [hlen, List.length_zip]
      simp [addZeroCol_length]
    · intro i r hr
      have hmem : r ∈ frame := List.getElem?_mem hr
      have hmid2 : (addZeroCol (addZeroCol (addZeroCol frame "latitude") "longitude") "section_id")[i]? = some (rowSet (rowSet (rowSet r "latitude" (PyVal.int 0)) "longitude" (PyVal.int 0)) "section_id" (PyVal.int 0)) := by
        simp only [addZeroCol_getElem?, hr, Option.map_some']
      have hfoldz : rowSet (rowSet (rowSet r "latitude" (PyVal.int 0)) "longitude" (PyVal.int 0)) "section_id" (PyVal.int 0) = r ++ [("latitude", PyVal.int 0), ("longitude", PyVal.int 0), ("section_id", PyVal.int 0)] := by
        calc rowSet (rowSet (rowSet r "latitude" (PyVal.int 0)) "longitude" (PyVal.int 0)) "section_id" (PyVal.int 0)
            = ([("latitude", PyVal.int 0), ("longitude", PyVal.int 0), ("section_id", PyVal.int 0)]).foldl (fun acc u => rowSet acc u.1 u.2) r := by rfl
          _ = r ++ [("latitude", PyVal.int 0), ("longitude", PyVal.int 0), ("section_id", PyVal.int 0)] := foldl_rowSet_fresh [("latitude", PyVal.int 0), ("longitude", PyVal.int 0), ("section_id", PyVal.int 0)] r
              (by
                intro u hu
                have hu1 : u.1 ∈ ["latitude", "longitude", "section_id"] := by
                  simp at hu
                  rcases hu with h | h | h <;> subst h <;> simp
                exact hfresh r hmem u.1 hu1)
              (by decide)
      have hpair := zip_getElem? frame _ i r _ hr hmid2
      obtain ⟨evs2, r2, hrow, hrows⟩ := hidx i r _ hpair
      obtain ⟨v1, v2, v3, hr2⟩ := getCoordinatesRow_shape env r _ evs2 r2 hrow
      rw [hfoldz] at hr2
      have hfold : rowSet (rowSet (rowSet (r ++ [("latitude", PyVal.int 0), ("longitude", PyVal.int 0), ("section_id", PyVal.int 0)]) "latitude" v1) "longitude" v2) "section_id" v3
          = ([("latitude", v1), ("longitude", v2), ("section_id", v3)]).foldl (fun acc u => rowSet acc u.1 u.2) (r ++ [("latitude", PyVal.int 0), ("longitude", PyVal.int 0), ("section_id", PyVal.int 0)]) := by rfl
      obtain ⟨s2, hs2, hfin⟩ := foldl_rowSet_shape [("latitude", v1), ("longitude", v2), ("section_id", v3)] [("latitude", PyVal.int 0), ("longitude", PyVal.int 0), ("section_id", PyVal.int 0)] r ["latitude", "longitude", "section_id"] (by rfl)
        (by intro u hu; simp at hu; rcases hu with h | h | h <;> subst h <;> simp)
        (by
          intro u hu
          have hu1 : u.1 ∈ ["latitude", "longitude", "section_id"] := by
            simp at hu
            rcases hu with h | h | h <;> subst h <;> simp
          exact hfresh r hmem u.1 hu1)
      refine ⟨s2, hs2, ?_⟩
      rw [hrows, hr2, hfold, hfin]
  have hk1 := applyCol_keeps_shape (getCoordinates_castLatitude env) "latitude" _ frame looped.2 f1
    (by simp) hfresh hshaped hc1
  have hk2 := applyCol_keeps_shape (getCoordinates_castLongitude env) "longitude" _ frame f1 f2
    (by simp) hfresh hk1 hc2
  exact hk2

theorem _set_voltages_ok_inv (env : CymEnv) (voltages : List (String × ℚ)) (evs : List Event)
    (h : _set_voltages env voltages = Except.ok evs) :
    ∃ n0 ns vA vB vC, env.listNetworks = n0 :: ns ∧
      dictGet voltages "VMAG_A" = Except.ok vA ∧
      dictGet voltages "VMAG_B" = Except.ok vB ∧
      dictGet voltages "VMAG_C" = Except.ok vC ∧
      evs = [Event.listNetworksEv,
        Event.setValueTopo (vA / 1000)
          "Sources[0].EquivalentSourceModels[0].EquivalentSource.OperatingVoltage1" n0,
        Event.setValueTopo (vB / 1000)
          "Sources[0].EquivalentSourceModels[0].EquivalentSource.OperatingVoltage2" n0,
        Event.setValueTopo (vC / 1000)
          "Sources[0].EquivalentSourceModels[0].EquivalentSource.OperatingVoltage3" n0] := by
  unfold _set_voltages at h
  obtain ⟨vA, hA, h⟩ := except_bind_ok h
  cases hnet : env.listNetworks with
  | nil =>
    rw [hnet] at h
    exact Except.noConfusion h
  | cons n0 ns =>
    rw [hnet] at h
    obtain ⟨vB, hB, h⟩ := except_bind_ok h
    obtain ⟨vC, hC, h⟩ := except_bind_ok h
    injection h with h
    exact ⟨n0, ns, vA, vB, vC, rfl, hA, hB, hC, h.symm⟩

theorem _set_voltages_events (env : CymEnv) (voltages : List (String × ℚ)) (evs : List Event)
    (h : _set_voltages env voltages = Except.ok evs) :
    ∀ e ∈ evs, e.isQueryNode = false ∧ e.isFileWrite = false := by
  obtain ⟨n0, ns, vA, vB, vC, _, _, _, _, hevs⟩ := _set_voltages_ok_inv env voltages evs h
  subst hevs
  intro e he
  simp at he
  rcases he with he | he | he | he <;> subst he <;> exact ⟨rfl, rfl⟩

theorem _add_loads_go_events (env : CymEnv) :
    ∀ (loads : List Load) (index : ℕ) (evs : List Event),
    _add_loads_go env index loads = Except.ok evs →
    ∀ e ∈ evs, e.isQueryNode = false ∧ e.isFileWrite = false := by
  intro loads
  induction loads with
  | nil =>
    intro index evs h e he
    unfold _add_loads_go at h
    injection h with h
    subst h
    simp at he
  | cons load rest ih =>
    intro index evs h e he
    unfold _add_loads_go at h
    obtain ⟨pv, hpv, h⟩ := except_bind_ok h
    obtain ⟨phases, hph, h⟩ := except_bind_ok h
    by_cases hz : phases.length = 0
    · rw [if_pos hz] at h
      exact Except.noConfusion h
    · rw [if_neg hz] at h
      obtain ⟨tail, htail, h⟩ := except_bind_ok h
      injection h with h
      subst h
      simp at he
      rcases he with he | he | he | he
      · subst he; exact ⟨rfl, rfl⟩
      · subst he; exact ⟨rfl, rfl⟩
      · unfold setKWLoop at he
        obtain ⟨phase, _, he⟩ := List.mem_map.mp he
        subst he
        exact ⟨rfl, rfl⟩
      · exact ih (index + 1) tail htail e he

theorem _add_pvs_go_events :
    ∀ (pvs : List Pv) (index : ℕ) (evs : List Event),
    _add_pvs_go index pvs = Except.ok evs →
    ∀ e ∈ evs, e.isQueryNode = false ∧ e.isFileWrite = false := by
  intro pvs
  induction pvs with
  | nil =>
    intro index evs h e he
    unfold _add_pvs_go at h
    injection h with h
    subst h
    simp at he
  | cons pv rest ih =>
    intro index evs h e he
    unfold _add_pvs_go at h
    obtain ⟨tail, htail, h⟩ := except_bind_ok h
    injection h with h
    subst h
    simp only [List.mem_cons] at he
    rcases he with he | he | he | he | he | he
    · subst he; exact ⟨rfl, rfl⟩
    · subst he; exact ⟨rfl, rfl⟩
    · subst he; exact ⟨rfl, rfl⟩
    · subst he; exact ⟨rfl, rfl⟩
    · subst he; exact ⟨rfl, rfl⟩
    · exact ih (index + 1) tail htail e he

theorem outputLoop_events (env : CymEnv) (default : PyVal) :
    ∀ pairs, ∀ e ∈ (outputLoop env default pairs).1,
      e.isQueryNode = true ∧ e.isFileWrite = false := by
  intro pairs
  induction pairs with
  | nil => intro e he; simp [outputLoop] at he
  | cons p rest ih =>
    intro e he
    obtain ⟨node_id, category⟩ := p
    unfold outputLoop at he
    simp only [List.mem_cons] at he
    rcases he with he | he
    · subst he; exact ⟨rfl, rfl⟩
    · exact ih e he

theorem outputLoop_cons (env : CymEnv) (default : PyVal) (node_id category : String)
    (rest : List (String × String)) :
    outputLoop env default ((node_id, category) :: rest) =
      (Event.queryNode category (PyVal.str node_id) :: (outputLoop env default rest).1,
       (match env.queryInfoNode category (PyVal.str node_id) with
        | Except.ok temp => if temp.truthy then temp else default
        | Except.error _ => default) :: (outputLoop env default rest).2) := by
  rfl

theorem outputLoop_values (env : CymEnv) (default : PyVal) :
    ∀ pairs : List (String × String),
    (outputLoop env default pairs).2.length = pairs.length ∧
    ∀ (i : ℕ) (node_id category : String), pairs[i]? = some (node_id, category) →
      (outputLoop env default pairs).2[i]? =
        some (match env.queryInfoNode category (PyVal.str node_id) with
          | Except.ok temp => if temp.truthy then temp else default
          | Except.error _ => default) := by
  intro pairs
  induction pairs with
  | nil =>
    refine ⟨rfl, ?_⟩
    intro i node_id category hp
    simp at hp
  | cons p rest ih =>
    obtain ⟨node_id, category⟩ := p
    obtain ⟨hlen, hidx⟩ := ih
    constructor
    · rw [outputLoop_cons]
      simp [hlen]
    · intro i nid cat hp
      cases i with
      | zero =>
        simp at hp
        obtain ⟨h1, h2⟩ := hp
        subst h1
        subst h2
        rw [outputLoop_cons]
        simp
      | succ n =>
        simp only [List.getElem?_cons_succ] at hp
        rw [outputLoop_cons]
        simp only [List.getElem?_cons_succ]
        exact hidx n nid cat hp

theorem fmu_wrapper_ok_inv (env : CymEnv) (m : String)
    (vn : List String) (vv : List ℚ) (ls lpn : List String) (lv : List ℚ)
    (ps ppn : List String) (pvv : List ℚ) (onames onodes : List String) (w : String)
    (tr : List Event) (out : List PyVal)
    (h : fmu_wrapper env m vn vv ls lpn lv ps ppn pvv onames onodes w = Except.ok (tr, out)) :
    ∃ vEvs lEvs pEvs,
      _set_voltages env (_input_voltages vn vv) = Except.ok vEvs ∧
      (if (if ls.length > 0 then _input_loads ls lpn lv else []).isEmpty then Except.ok []
        else _add_loads env (if ls.length > 0 then _input_loads ls lpn lv else [])) = Except.ok lEvs ∧
      (if (if ps.length > 0 then _input_pvs ps ppn pvv else []).isEmpty then Except.ok []
        else _add_pvs (if ps.length > 0 then _input_pvs ps ppn pvv else [])) = Except.ok pEvs ∧
      tr = Event.openModel m :: vEvs ++ lEvs ++ pEvs ++
        Event.loadFlowRun :: (_output_values env onodes onames (PyVal.int 0)).1 ∧
      out = (_output_values env onodes onames (PyVal.int 0)).2 := by
  unfold fmu_wrapper at h
  obtain ⟨vEvs, hv, h⟩ := except_bind_ok h
  obtain ⟨lEvs, hl, h⟩ := except_bind_ok h
  obtain ⟨pEvs, hp, h⟩ := except_bind_ok h
  injection h with h
  injection h with htr hout
  refine ⟨vEvs, lEvs, pEvs, hv, hl, hp, ?_, hout.symm⟩
  rw [← htr]
  cases hwr : (w == "True" || w == "true" || w == "1") <;>
    simp [hwr, _write_results]

theorem ok_bind {α β : Type} (a : α) (f : α → Except Unit β) :
    (Except.ok a >>= f) = f a := rfl

theorem error_bind {α β : Type} (f : α → Except Unit β) :
    ((Except.error () : Except Unit α) >>= f) = Except.error () := rfl

/-- C1 (amended): in `_output_values` a query that raises or returns a
falsy value yields the caller-supplied default `0` at the corresponding
position; `get_voltage`, by contrast, does not swallow query exceptions
(they propagate to the caller) and its cast maps an empty-string query
result to `None`, not to a default `0`. -/
theorem output_values_default_policy (env : CymEnv)
    (output_nodes output_names : List String) (i : ℕ) (node name : String)
    (hp : (List.zip output_nodes output_names)[i]? = some (node, name))
    (hfail : env.queryInfoNode name (PyVal.str node) = Except.error () ∨
      ∃ v, env.queryInfoNode name (PyVal.str node) = Except.ok v ∧ v.truthy = false) :
    (_output_values env output_nodes output_names (PyVal.int 0)).2[i]? = some (PyVal.int 0) ∧
    castFloat env (PyVal.str "") = Except.ok PyVal.none ∧
    (∀ (orig : Row) (rest : Frame) (dn dtv : PyVal) (dt : ℤ),
      rowGet orig "device_number" = Except.ok dn →
      rowGet orig "device_type_id" = Except.ok dtv →
      pyToInt dtv = Except.ok dt →
      env.queryInfoDevice "VpuA" dn dt = Except.error () →
      get_voltage env (orig :: rest) false = Except.error ()) := by
  refine ⟨?_, rfl, ?_⟩
  · obtain ⟨hlen, hidx⟩ := outputLoop_values env (PyVal.int 0)
      (List.zip output_nodes output_names)
    have hval := hidx i node name hp
    unfold _output_values
    rcases hfail with hq | ⟨v, hq, hv⟩
    · rw [hq] at hval
      exact hval
    · rw [hq] at hval
      rw [hval]
      simp [hv]
  · intro orig rest dn dtv dt h1 h2 h3 h4
    have hrow : getVoltageRow env false orig
        (rowSet (rowSet (rowSet orig "voltage_A" (PyVal.int 0)) "voltage_B" (PyVal.int 0))
          "voltage_C" (PyVal.int 0)) = Except.error () := by
      unfold getVoltageRow
      rw [if_pos rfl]
      simp only [h1, h2, h3, h4, ok_bind, error_bind]
    unfold get_voltage
    dsimp only
    have hz : List.zip (orig :: rest)
        (addZeroCol (addZeroCol (addZeroCol (orig :: rest) "voltage_A") "voltage_B") "voltage_C")
        = (orig, rowSet (rowSet (rowSet orig "voltage_A" (PyVal.int 0)) "voltage_B" (PyVal.int 0))
            "voltage_C" (PyVal.int 0)) ::
          List.zip rest (addZeroCol (addZeroCol (addZeroCol rest "voltage_A") "voltage_B") "voltage_C") := rfl
    rw [hz]
    unfold getVoltageLoop
    simp only [hrow, error_bind, ok_bind]

/-- C1 counterexample: with an oracle whose device queries raise,
`get_voltage` raises as well (no default is substituted), and the
empty-string falsy result is cast to `None`, not to `0`. -/
theorem get_voltage_error_propagates :
    get_voltage envErrW
      [[("device_number", PyVal.str "d1"), ("device_type_id", PyVal.int 14)]] false
      = Except.error () ∧
    castFloat envErrW (PyVal.str "") = Except.ok PyVal.none ∧
    Except.ok PyVal.none ≠ (Except.ok (PyVal.int 0) : Except Unit PyVal) := by
  refine ⟨rfl, rfl, by simp⟩

/-- C1 witness: concrete instantiation of the amended claim. -/
theorem output_values_default_policy_witness :
    (_output_values envErrW ["n1"] ["KWA"] (PyVal.int 0)).2[0]? = some (PyVal.int 0) ∧
    castFloat envErrW (PyVal.str "") = Except.ok PyVal.none ∧
    get_voltage envErrW
      [[("device_number", PyVal.str "d1"), ("device_type_id", PyVal.int 14)]] false
      = Except.error () := by
  have h := output_values_default_policy envErrW ["n1"] ["KWA"] 0 "n1" "KWA" rfl (Or.inl rfl)
  exact ⟨h.1, h.2.1,
    h.2.2 [("device_number", PyVal.str "d1"), ("device_type_id", PyVal.int 14)] []
      (PyVal.str "d1") (PyVal.int 14) 14 rfl rfl rfl rfl⟩

theorem loads_opt_events (env : CymEnv) (loads : List Load) (lEvs : List Event)
    (h : (if loads.isEmpty then Except.ok [] else _add_loads env loads) = Except.ok lEvs) :
    ∀ e ∈ lEvs, e.isQueryNode = false ∧ e.isFileWrite = false := by
  by_cases hl : loads.isEmpty
  · rw [if_pos hl] at h
    injection h with h
    subst h
    intro e he
    simp at he
  · rw [if_neg hl] at h
    exact _add_loads_go_events env loads 0 lEvs h

theorem pvs_opt_events (pvs : List Pv) (pEvs : List Event)
    (h : (if pvs.isEmpty then Except.ok [] else _add_pvs pvs) = Except.ok pEvs) :
    ∀ e ∈ pEvs, e.isQueryNode = false ∧ e.isFileWrite = false := by
  by_cases hp : pvs.isEmpty
  · rw [if_pos hp] at h
    injection h with h
    subst h
    intro e he
    simp at he
  · rw [if_neg hp] at h
    exact _add_pvs_go_events pvs 0 pEvs h

theorem fmu_wrapper_write_indep (env : CymEnv) (m : String)
    (vn : List String) (vv : List ℚ) (ls lpn : List String) (lv : List ℚ)
    (ps ppn : List String) (pvv : List ℚ) (onames onodes : List String) (w1 w2 : String) :
    fmu_wrapper env m vn vv ls lpn lv ps ppn pvv onames onodes w1
      = fmu_wrapper env m vn vv ls lpn lv ps ppn pvv onames onodes w2 := by
  unfold fmu_wrapper
  cases h1 : (w1 == "True" || w1 == "true" || w1 == "1") <;>
    cases h2 : (w2 == "True" || w2 == "true" || w2 == "1") <;>
      simp [h1, h2, _write_results]

/-- C2: `fmu_wrapper` persists nothing.  Its result does not depend on the
`write_result` argument at all, `_write_results` performs no vendor call or
file write and returns `True`, and a successful run's event trace contains
no file-write event. -/
theorem fmu_wrapper_no_persistence (env : CymEnv) (m : String)
    (vn : List String) (vv : List ℚ) (ls lpn : List String) (lv : List ℚ)
    (ps ppn : List String) (pvv : List ℚ) (onames onodes : List String)
    (w1 w2 : String) (tr : List Event) (out : List PyVal)
    (h : fmu_wrapper env m vn vv ls lpn lv ps ppn pvv onames onodes w1 = Except.ok (tr, out)) :
    fmu_wrapper env m vn vv ls lpn lv ps ppn pvv onames onodes w1
      = fmu_wrapper env m vn vv ls lpn lv ps ppn pvv onames onodes w2 ∧
    _write_results m = ([], true) ∧
    tr.all (fun e => !e.isFileWrite) = true := by
  refine ⟨fmu_wrapper_write_indep env m vn vv ls lpn lv ps ppn pvv onames onodes w1 w2,
    rfl, ?_⟩
  obtain ⟨vEvs, lEvs, pEvs, hv, hl, hp, htr, hout⟩ :=
    fmu_wrapper_ok_inv env m vn vv ls lpn lv ps ppn pvv onames onodes w1 tr out h
  subst htr
  rw [List.all_eq_true]
  intro e he
  simp at he
  rcases he with he | he | he | he | he | he
  · subst he; rfl
  · exact by rw [(_set_voltages_events env _ vEvs hv e he).2]; rfl
  · exact by rw [(loads_opt_events env _ lEvs hl e he).2]; rfl
  · exact by rw [(pvs_opt_events _ pEvs hp e he).2]; rfl
  · subst he; rfl
  · exact by rw [(outputLoop_events env (PyVal.int 0) _ e he).2]; rfl

/-- C2 witness: a concrete run is identical under `write_result = "True"`
and `"False"`, and its trace has no file-write event. -/
theorem fmu_wrapper_no_persistence_witness :
    fmu_wrapper envOkW "m" ["VMAG_A", "VMAG_B", "VMAG_C"] [1000, 2000, 3000]
        [] [] [] [] [] [] ["KWA"] ["n1"] "True"
      = fmu_wrapper envOkW "m" ["VMAG_A", "VMAG_B", "VMAG_C"] [1000, 2000, 3000]
        [] [] [] [] [] [] ["KWA"] ["n1"] "False" ∧
    _write_results "m" = ([], true) ∧
    [Event.openModel "m", Event.listNetworksEv,
      Event.setValueTopo (1000 / 1000)
        "Sources[0].EquivalentSourceModels[0].EquivalentSource.OperatingVoltage1" 7,
      Event.setValueTopo (2000 / 1000)
        "Sources[0].EquivalentSourceModels[0].EquivalentSource.OperatingVoltage2" 7,
      Event.setValueTopo (3000 / 1000)
        "Sources[0].EquivalentSourceModels[0].EquivalentSource.OperatingVoltage3" 7,
      Event.loadFlowRun,
      Event.queryNode "KWA" (PyVal.str "n1")].all (fun e => !e.isFileWrite) = true := by
  exact fmu_wrapper_no_persistence envOkW "m" ["VMAG_A", "VMAG_B", "VMAG_C"] [1000, 2000, 3000]
    [] [] [] [] [] [] ["KWA"] ["n1"] "True" "False"
    [Event.openModel "m", Event.listNetworksEv,
      Event.setValueTopo (1000 / 1000)
        "Sources[0].EquivalentSourceModels[0].EquivalentSource.OperatingVoltage1" 7,
      Event.setValueTopo (2000 / 1000)
        "Sources[0].EquivalentSourceModels[0].EquivalentSource.OperatingVoltage2" 7,
      Event.setValueTopo (3000 / 1000)
        "Sources[0].EquivalentSourceModels[0].EquivalentSource.OperatingVoltage3" 7,
      Event.loadFlowRun,
      Event.queryNode "KWA" (PyVal.str "n1")] [PyVal.float 1] (by rfl)

/-- C3: every successful `fmu_wrapper` call issues one fixed straight-line
vendor-call sequence: open the model, set the three source voltages, add
load devices (only when the zipped load inputs are non-empty), add PV
devices (only when the zipped PV inputs are non-empty), run the load flow,
and only then query the output node attributes.  The prefix before the
load-flow run contains no output-node query, and every event after the
load-flow run is an output-node query; the model open is the first event. -/
theorem fmu_wrapper_call_sequence (env : CymEnv) (m : String)
    (vn : List String) (vv : List ℚ) (ls lpn : List String) (lv : List ℚ)
    (ps ppn : List String) (pvv : List ℚ) (onames onodes : List String) (w : String)
    (loads : List Load) (pvs : List Pv) (vEvs lEvs pEvs : List Event)
    (hloads : loads = (if ls.length > 0 then _input_loads ls lpn lv else []))
    (hpvs : pvs = (if ps.length > 0 then _input_pvs ps ppn pvv else []))
    (hv : _set_voltages env (_input_voltages vn vv) = Except.ok vEvs)
    (hl : (if loads.isEmpty then Except.ok [] else _add_loads env loads) = Except.ok lEvs)
    (hp : (if pvs.isEmpty then Except.ok [] else _add_pvs pvs) = Except.ok pEvs) :
    fmu_wrapper env m vn vv ls lpn lv ps ppn pvv onames onodes w
      = Except.ok (Event.openModel m :: vEvs ++ lEvs ++ pEvs ++
          Event.loadFlowRun :: (_output_values env onodes onames (PyVal.int 0)).1,
        (_output_values env onodes onames (PyVal.int 0)).2) ∧
    (vEvs ++ lEvs ++ pEvs).all (fun e => !e.isQueryNode) = true ∧
    (_output_values env onodes onames (PyVal.int 0)).1.all (fun e => e.isQueryNode) = true := by
  subst hloads
  subst hpvs
  refine ⟨?_, ?_, ?_⟩
  · unfold fmu_wrapper
    dsimp only
    rw [hv, ok_bind, hl, ok_bind, hp, ok_bind]
    cases hwr : (w == "True" || w == "true" || w == "1") <;> simp [_write_results]
  · rw [List.all_eq_true]
    intro e he
    simp only [List.mem_append] at he
    rcases he with (he | he) | he
    · rw [(_set_voltages_events env _ vEvs hv e he).1]; rfl
    · rw [(loads_opt_events env _ lEvs hl e he).1]; rfl
    · rw [(pvs_opt_events _ pEvs hp e he).1]; rfl
  · rw [List.all_eq_true]
    intro e he
    exact (outputLoop_events env (PyVal.int 0) _ e he).1

/-- C3 witness: the fixed call sequence on a concrete run that adds one
load and one PV device. -/
theorem fmu_wrapper_call_sequence_witness :
    fmu_wrapper envPhaseW "m" ["VMAG_A", "VMAG_B", "VMAG_C"] [1000, 2000, 3000]
        ["s1"] ["KW"] [100] ["s2"] ["KW"] [100] ["KWA"] ["n1"] "False"
      = Except.ok (Event.openModel "m" ::
          [Event.listNetworksEv,
            Event.setValueTopo (1000 / 1000)
              "Sources[0].EquivalentSourceModels[0].EquivalentSource.OperatingVoltage1" 7,
            Event.setValueTopo (2000 / 1000)
              "Sources[0].EquivalentSourceModels[0].EquivalentSource.OperatingVoltage2" 7,
            Event.setValueTopo (3000 / 1000)
              "Sources[0].EquivalentSourceModels[0].EquivalentSource.OperatingVoltage3" 7] ++
          [Event.addDevice "MY_LOAD_0" 14 "s1" "DEFAULT" true,
            Event.queryDevice "Phase" (PyVal.str "MY_LOAD_0") 14,
            Event.setValueDevice (PyVal.float (100 / ((2 : ℕ) : ℚ)))
              "CustomerLoads[0].CustomerLoadModels[0].CustomerLoadValues[0].LoadValue.KW"
              "MY_LOAD_0" 14,
            Event.setValueDevice (PyVal.float (100 / ((2 : ℕ) : ℚ)))
              "CustomerLoads[0].CustomerLoadModels[0].CustomerLoadValues[1].LoadValue.KW"
              "MY_LOAD_0" 14] ++
          [Event.addPvDevice "my_pv_0" "s2",
            Event.devSetValue "my_pv_0" (PyVal.int (pyInt ((100 + 30) / (23 * 0.08)))) "Np",
            Event.devSetValue "my_pv_0" (PyVal.float 100) "GenerationModels[0].ActiveGeneration",
            Event.devSetValue "my_pv_0" (PyVal.float 100) "Inverter.ActivePowerRating",
            Event.devSetValue "my_pv_0" (PyVal.float 100) "Inverter.ReactivePowerRating"] ++
          Event.loadFlowRun :: (_output_values envPhaseW ["n1"] ["KWA"] (PyVal.int 0)).1,
        (_output_values envPhaseW ["n1"] ["KWA"] (PyVal.int 0)).2) ∧
    ([Event.listNetworksEv,
      Event.setValueTopo (1000 / 1000)
        "Sources[0].EquivalentSourceModels[0].EquivalentSource.OperatingVoltage1" 7,
      Event.setValueTopo (2000 / 1000)
        "Sources[0].EquivalentSourceModels[0].EquivalentSource.OperatingVoltage2" 7,
      Event.setValueTopo (3000 / 1000)
        "Sources[0].EquivalentSourceModels[0].EquivalentSource.OperatingVoltage3" 7] ++
      [Event.addDevice "MY_LOAD_0" 14 "s1" "DEFAULT" true,
        Event.queryDevice "Phase" (PyVal.str "MY_LOAD_0") 14,
        Event.setValueDevice (PyVal.float (100 / ((2 : ℕ) : ℚ)))
          "CustomerLoads[0].CustomerLoadModels[0].CustomerLoadValues[0].LoadValue.KW"
          "MY_LOAD_0" 14,
        Event.setValueDevice (PyVal.float (100 / ((2 : ℕ) : ℚ)))
          "CustomerLoads[0].CustomerLoadModels[0].CustomerLoadValues[1].LoadValue.KW"
          "MY_LOAD_0" 14] ++
      [Event.addPvDevice "my_pv_0" "s2",
        Event.devSetValue "my_pv_0" (PyVal.int (pyInt ((100 + 30) / (23 * 0.08)))) "Np",
        Event.devSetValue "my_pv_0" (PyVal.float 100) "GenerationModels[0].ActiveGeneration",
        Event.devSetValue "my_pv_0" (PyVal.float 100) "Inverter.ActivePowerRating",
        Event.devSetValue "my_pv_0" (PyVal.float 100) "Inverter.ReactivePowerRating"]).all
      (fun e => !e.isQueryNode) = true ∧
    (_output_values envPhaseW ["n1"] ["KWA"] (PyVal.int 0)).1.all
      (fun e => e.isQueryNode) = true := by
  exact fmu_wrapper_call_sequence envPhaseW "m" ["VMAG_A", "VMAG_B", "VMAG_C"] [1000, 2000, 3000]
    ["s1"] ["KW"] [100] ["s2"] ["KW"] [100] ["KWA"] ["n1"] "False"
    [{ section_id := "s1", active_power := 100, parameter_name := "KW" }]
    [{ section_id := "s2", generation := 100, parameter_name := "KW" }]
    [Event.listNetworksEv,
      Event.setValueTopo (1000 / 1000)
        "Sources[0].EquivalentSourceModels[0].EquivalentSource.OperatingVoltage1" 7,
      Event.setValueTopo (2000 / 1000)
        "Sources[0].EquivalentSourceModels[0].EquivalentSource.OperatingVoltage2" 7,
      Event.setValueTopo (3000 / 1000)
        "Sources[0].EquivalentSourceModels[0].EquivalentSource.OperatingVoltage3" 7]
    [Event.addDevice "MY_LOAD_0" 14 "s1" "DEFAULT" true,
      Event.queryDevice "Phase" (PyVal.str "MY_LOAD_0") 14,
      Event.setValueDevice (PyVal.float (100 / ((2 : ℕ) : ℚ)))
        "CustomerLoads[0].CustomerLoadModels[0].CustomerLoadValues[0].LoadValue.KW"
        "MY_LOAD_0" 14,
      Event.setValueDevice (PyVal.float (100 / ((2 : ℕ) : ℚ)))
        "CustomerLoads[0].CustomerLoadModels[0].CustomerLoadValues[1].LoadValue.KW"
        "MY_LOAD_0" 14]
    [Event.addPvDevice "my_pv_0" "s2",
      Event.devSetValue "my_pv_0" (PyVal.int (pyInt ((100 + 30) / (23 * 0.08)))) "Np",
      Event.devSetValue "my_pv_0" (PyVal.float 100) "GenerationModels[0].ActiveGeneration",
      Event.devSetValue "my_pv_0" (PyVal.float 100) "Inverter.ActivePowerRating",
      Event.devSetValue "my_pv_0" (PyVal.float 100) "Inverter.ReactivePowerRating"]
    (by rfl) (by rfl) (by rfl) (by rfl) (by rfl)

theorem load_allocation_ok (env : CymEnv) (values : List (String × ℚ))
    (n0 : ℕ) (ns : List ℕ) (pA qA pB qB pC qC wA wB wC : ℚ)
    (hnet : env.listNetworks = n0 :: ns)
    (hpA : dictGet values "P_A" = Except.ok pA)
    (hqA : dictGet values "Q_A" = Except.ok qA)
    (hpB : dictGet values "P_B" = Except.ok pB)
    (hqB : dictGet values "Q_B" = Except.ok qB)
    (hpC : dictGet values "P_C" = Except.ok pC)
    (hqC : dictGet values "Q_C" = Except.ok qC)
    (hwA : dictGet values "VMAG_A" = Except.ok wA)
    (hwB : dictGet values "VMAG_B" = Except.ok wB)
    (hwC : dictGet values "VMAG_C" = Except.ok wC) :
    load_allocation env values = Except.ok ([Event.listNetworksEv,
      Event.setDemand n0 ⟨false, ⟨pA, qA⟩, ⟨pB, qB⟩, ⟨pC, qC⟩, "KW_KVAR"⟩,
      Event.setValueTopo (wA / 1000)
        "Sources[0].EquivalentSourceModels[0].EquivalentSource.OperatingVoltage1" n0,
      Event.setValueTopo (wB / 1000)
        "Sources[0].EquivalentSourceModels[0].EquivalentSource.OperatingVoltage2" n0,
      Event.setValueTopo (wC / 1000)
        "Sources[0].EquivalentSourceModels[0].EquivalentSource.OperatingVoltage3" n0,
      Event.loadAllocRun [n0]],
      ⟨false, ⟨pA, qA⟩, ⟨pB, qB⟩, ⟨pC, qC⟩, "KW_KVAR"⟩) := by
  unfold load_allocation
  simp only [hpA, hqA, hpB, hqB, hpC, hqC, ok_bind]
  rw [hnet]
  simp only [hwA, hwB, hwC, ok_bind]

/-- C4: both `_set_voltages` (used by `fmu_wrapper`) and `load_allocation`
write `VMAG_X / 1000` (volts in, kilovolts out) to the `OperatingVoltage`
attribute of phase X of the first network returned by `ListNetworks`, and
every `SetValueTopo` either function issues targets that first network. -/
theorem source_voltage_conversion (env : CymEnv) (voltages values : List (String × ℚ))
    (n0 : ℕ) (ns : List ℕ) (vA vB vC pA qA pB qB pC qC wA wB wC : ℚ)
    (hnet : env.listNetworks = n0 :: ns)
    (hA : dictGet voltages "VMAG_A" = Except.ok vA)
    (hB : dictGet voltages "VMAG_B" = Except.ok vB)
    (hC : dictGet voltages "VMAG_C" = Except.ok vC)
    (hpA : dictGet values "P_A" = Except.ok pA)
    (hqA : dictGet values "Q_A" = Except.ok qA)
    (hpB : dictGet values "P_B" = Except.ok pB)
    (hqB : dictGet values "Q_B" = Except.ok qB)
    (hpC : dictGet values "P_C" = Except.ok pC)
    (hqC : dictGet values "Q_C" = Except.ok qC)
    (hwA : dictGet values "VMAG_A" = Except.ok wA)
    (hwB : dictGet values "VMAG_B" = Except.ok wB)
    (hwC : dictGet values "VMAG_C" = Except.ok wC) :
    _set_voltages env voltages = Except.ok [Event.listNetworksEv,
      Event.setValueTopo (vA / 1000)
        "Sources[0].EquivalentSourceModels[0].EquivalentSource.OperatingVoltage1" n0,
      Event.setValueTopo (vB / 1000)
        "Sources[0].EquivalentSourceModels[0].EquivalentSource.OperatingVoltage2" n0,
      Event.setValueTopo (vC / 1000)
        "Sources[0].EquivalentSourceModels[0].EquivalentSource.OperatingVoltage3" n0] ∧
    (∀ tr d, load_allocation env values = Except.ok (tr, d) →
      (∀ v a n, Event.setValueTopo v a n ∈ tr → n = n0) ∧
      Event.setValueTopo (wA / 1000)
        "Sources[0].EquivalentSourceModels[0].EquivalentSource.OperatingVoltage1" n0 ∈ tr ∧
      Event.setValueTopo (wB / 1000)
        "Sources[0].EquivalentSourceModels[0].EquivalentSource.OperatingVoltage2" n0 ∈ tr ∧
      Event.setValueTopo (wC / 1000)
        "Sources[0].EquivalentSourceModels[0].EquivalentSource.OperatingVoltage3" n0 ∈ tr) ∧
    (∀ v a n, Event.setValueTopo v a n ∈ [Event.listNetworksEv,
      Event.setValueTopo (vA / 1000)
        "Sources[0].EquivalentSourceModels[0].EquivalentSource.OperatingVoltage1" n0,
      Event.setValueTopo (vB / 1000)
        "Sources[0].EquivalentSourceModels[0].EquivalentSource.OperatingVoltage2" n0,
      Event.setValueTopo (vC / 1000)
        "Sources[0].EquivalentSourceModels[0].EquivalentSource.OperatingVoltage3" n0] → n = n0) := by
  have hla := load_allocation_ok env values n0 ns pA qA pB qB pC qC wA wB wC
    hnet hpA hqA hpB hqB hpC hqC hwA hwB hwC
  refine ⟨?_, ?_, ?_⟩
  · unfold _set_voltages
    simp only [hA, ok_bind]
    rw [hnet]
    simp only [hB, hC, ok_bind]
  · intro tr d h
    rw [hla] at h
    injection h with h
    injection h with h1 h2
    subst h1
    refine ⟨?_, by simp, by simp, by simp⟩
    intro v a n hm
    simp at hm
    rcases hm with ⟨_, _, hm⟩ | ⟨_, _, hm⟩ | ⟨_, _, hm⟩
    · exact hm
    · exact hm
    · exact hm
  · intro v a n hm
    simp at hm
    rcases hm with ⟨_, _, hm⟩ | ⟨_, _, hm⟩ | ⟨_, _, hm⟩
    · exact hm
    · exact hm
    · exact hm

/-- C4 witness: concrete voltage conversion on both paths. -/
theorem source_voltage_conversion_witness :
    _set_voltages envOkW [("VMAG_A", 1000), ("VMAG_B", 2000), ("VMAG_C", 3000)]
      = Except.ok [Event.listNetworksEv,
        Event.setValueTopo (1000 / 1000)
          "Sources[0].EquivalentSourceModels[0].EquivalentSource.OperatingVoltage1" 7,
        Event.setValueTopo (2000 / 1000)
          "Sources[0].EquivalentSourceModels[0].EquivalentSource.OperatingVoltage2" 7,
        Event.setValueTopo (3000 / 1000)
          "Sources[0].EquivalentSourceModels[0].EquivalentSource.OperatingVoltage3" 7] ∧
    ((∀ v a n, Event.setValueTopo v a n ∈ [Event.listNetworksEv,
        Event.setDemand 7 ⟨false, ⟨1, 2⟩, ⟨3, 4⟩, ⟨5, 6⟩, "KW_KVAR"⟩,
        Event.setValueTopo (4000 / 1000)
          "Sources[0].EquivalentSourceModels[0].EquivalentSource.OperatingVoltage1" 7,
        Event.setValueTopo (5000 / 1000)
          "Sources[0].EquivalentSourceModels[0].EquivalentSource.OperatingVoltage2" 7,
        Event.setValueTopo (6000 / 1000)
          "Sources[0].EquivalentSourceModels[0].EquivalentSource.OperatingVoltage3" 7,
        Event.loadAllocRun [7]] → n = 7) ∧
      Event.setValueTopo (4000 / 1000)
        "Sources[0].EquivalentSourceModels[0].EquivalentSource.OperatingVoltage1" 7 ∈
        [Event.listNetworksEv,
          Event.setDemand 7 ⟨false, ⟨1, 2⟩, ⟨3, 4⟩, ⟨5, 6⟩, "KW_KVAR"⟩,
          Event.setValueTopo (4000 / 1000)
            "Sources[0].EquivalentSourceModels[0].EquivalentSource.OperatingVoltage1" 7,
          Event.setValueTopo (5000 / 1000)
            "Sources[0].EquivalentSourceModels[0].EquivalentSource.OperatingVoltage2" 7,
          Event.setValueTopo (6000 / 1000)
            "Sources[0].EquivalentSourceModels[0].EquivalentSource.OperatingVoltage3" 7,
          Event.loadAllocRun [7]] ∧
      Event.setValueTopo (5000 / 1000)
        "Sources[0].EquivalentSourceModels[0].EquivalentSource.OperatingVoltage2" 7 ∈
        [Event.listNetworksEv,
          Event.setDemand 7 ⟨false, ⟨1, 2⟩, ⟨3, 4⟩, ⟨5, 6⟩, "KW_KVAR"⟩,
          Event.setValueTopo (4000 / 1000)
            "Sources[0].EquivalentSourceModels[0].EquivalentSource.OperatingVoltage1" 7,
          Event.setValueTopo (5000 / 1000)
            "Sources[0].EquivalentSourceModels[0].EquivalentSource.OperatingVoltage2" 7,
          Event.setValueTopo (6000 / 1000)
            "Sources[0].EquivalentSourceModels[0].EquivalentSource.OperatingVoltage3" 7,
          Event.loadAllocRun [7]] ∧
      Event.setValueTopo (6000 / 1000)
        "Sources[0].EquivalentSourceModels[0].EquivalentSource.OperatingVoltage3" 7 ∈
        [Event.listNetworksEv,
          Event.setDemand 7 ⟨false, ⟨1, 2⟩, ⟨3, 4⟩, ⟨5, 6⟩, "KW_KVAR"⟩,
          Event.setValueTopo (4000 / 1000)
            "Sources[0].EquivalentSourceModels[0].EquivalentSource.OperatingVoltage1" 7,
          Event.setValueTopo (5000 / 1000)
            "Sources[0].EquivalentSourceModels[0].EquivalentSource.OperatingVoltage2" 7,
          Event.setValueTopo (6000 / 1000)
            "Sources[0].EquivalentSourceModels[0].EquivalentSource.OperatingVoltage3" 7,
          Event.loadAllocRun [7]]) := by
  have h := source_voltage_conversion envOkW
    [("VMAG_A", 1000), ("VMAG_B", 2000), ("VMAG_C", 3000)]
    [("P_A", 1), ("Q_A", 2), ("P_B", 3), ("Q_B", 4), ("P_C", 5), ("Q_C", 6),
      ("VMAG_A", 4000), ("VMAG_B", 5000), ("VMAG_C", 6000)]
    7 [] 1000 2000 3000 1 2 3 4 5 6 4000 5000 6000
    rfl rfl rfl rfl rfl rfl rfl rfl rfl rfl rfl rfl rfl
  exact ⟨h.1, h.2.1 _ _ (by rfl)⟩

/-- C7: `load_allocation` builds a per-phase demand meter
(`IsTotalDemand = False`) whose phase-X demand carries `Value1 = P_X`,
`Value2 = Q_X` with load value type `KW_KVAR`, assigns it to the first
network returned by `ListNetworks` only, sets that network's three source
operating voltages, and runs the allocation on exactly that network. -/
theorem load_allocation_demand (env : CymEnv) (values : List (String × ℚ))
    (n0 : ℕ) (ns : List ℕ) (pA qA pB qB pC qC wA wB wC : ℚ)
    (hnet : env.listNetworks = n0 :: ns)
    (hpA : dictGet values "P_A" = Except.ok pA)
    (hqA : dictGet values "Q_A" = Except.ok qA)
    (hpB : dictGet values "P_B" = Except.ok pB)
    (hqB : dictGet values "Q_B" = Except.ok qB)
    (hpC : dictGet values "P_C" = Except.ok pC)
    (hqC : dictGet values "Q_C" = Except.ok qC)
    (hwA : dictGet values "VMAG_A" = Except.ok wA)
    (hwB : dictGet values "VMAG_B" = Except.ok wB)
    (hwC : dictGet values "VMAG_C" = Except.ok wC) :
    load_allocation env values = Except.ok ([Event.listNetworksEv,
      Event.setDemand n0 ⟨false, ⟨pA, qA⟩, ⟨pB, qB⟩, ⟨pC, qC⟩, "KW_KVAR"⟩,
      Event.setValueTopo (wA / 1000)
        "Sources[0].EquivalentSourceModels[0].EquivalentSource.OperatingVoltage1" n0,
      Event.setValueTopo (wB / 1000)
        "Sources[0].EquivalentSourceModels[0].EquivalentSource.OperatingVoltage2" n0,
      Event.setValueTopo (wC / 1000)
        "Sources[0].EquivalentSourceModels[0].EquivalentSource.OperatingVoltage3" n0,
      Event.loadAllocRun [n0]],
      ⟨false, ⟨pA, qA⟩, ⟨pB, qB⟩, ⟨pC, qC⟩, "KW_KVAR"⟩) ∧
    (∀ tr d, load_allocation env values = Except.ok (tr, d) →
      d.IsTotalDemand = false ∧ d.DemandA.Value1 = pA ∧ d.DemandA.Value2 = qA ∧
      d.DemandB.Value1 = pB ∧ d.DemandB.Value2 = qB ∧
      d.DemandC.Value1 = pC ∧ d.DemandC.Value2 = qC ∧
      d.LoadValueType = "KW_KVAR" ∧
      (∀ n d2, Event.setDemand n d2 ∈ tr → n = n0 ∧ d2 = d) ∧
      (∀ nets, Event.loadAllocRun nets ∈ tr → nets = [n0])) := by
  have hla := load_allocation_ok env values n0 ns pA qA pB qB pC qC wA wB wC
    hnet hpA hqA hpB hqB hpC hqC hwA hwB hwC
  refine ⟨hla, ?_⟩
  intro tr d h
  rw [hla] at h
  injection h with h
  injection h with h1 h2
  subst h1
  subst h2
  refine ⟨rfl, rfl, rfl, rfl, rfl, rfl, rfl, rfl, ?_, ?_⟩
  · intro n d2 hm
    simp at hm
    rcases hm with ⟨hn, hd⟩
    exact ⟨hn, hd⟩
  · intro nets hm
    simp at hm
    exact hm

/-- C7 witness: a concrete load allocation. -/
theorem load_allocation_demand_witness :
    load_allocation envOkW
      [("P_A", 1), ("Q_A", 2), ("P_B", 3), ("Q_B", 4), ("P_C", 5), ("Q_C", 6),
        ("VMAG_A", 4000), ("VMAG_B", 5000), ("VMAG_C", 6000)]
      = Except.ok ([Event.listNetworksEv,
        Event.setDemand 7 ⟨false, ⟨1, 2⟩, ⟨3, 4⟩, ⟨5, 6⟩, "KW_KVAR"⟩,
        Event.setValueTopo (4000 / 1000)
          "Sources[0].EquivalentSourceModels[0].EquivalentSource.OperatingVoltage1" 7,
        Event.setValueTopo (5000 / 1000)
          "Sources[0].EquivalentSourceModels[0].EquivalentSource.OperatingVoltage2" 7,
        Event.setValueTopo (6000 / 1000)
          "Sources[0].EquivalentSourceModels[0].EquivalentSource.OperatingVoltage3" 7,
        Event.loadAllocRun [7]],
        ⟨false, ⟨1, 2⟩, ⟨3, 4⟩, ⟨5, 6⟩, "KW_KVAR"⟩) ∧
    (⟨false, ⟨1, 2⟩, ⟨3, 4⟩, ⟨5, 6⟩, "KW_KVAR"⟩ : Meter).IsTotalDemand = false ∧
    (⟨false, ⟨1, 2⟩, ⟨3, 4⟩, ⟨5, 6⟩, "KW_KVAR"⟩ : Meter).DemandA.Value1 = 1 ∧
    (⟨false, ⟨1, 2⟩, ⟨3, 4⟩, ⟨5, 6⟩, "KW_KVAR"⟩ : Meter).LoadValueType = "KW_KVAR" := by
  have h := load_allocation_demand envOkW
    [("P_A", 1), ("Q_A", 2), ("P_B", 3), ("Q_B", 4), ("P_C", 5), ("Q_C", 6),
      ("VMAG_A", 4000), ("VMAG_B", 5000), ("VMAG_C", 6000)]
    7 [] 1 2 3 4 5 6 4000 5000 6000
    rfl rfl rfl rfl rfl rfl rfl rfl rfl rfl
  have h2 := h.2 _ _ h.1
  exact ⟨h.1, h2.1, h2.2.1, h2.2.2.2.2.2.2.2.1⟩

/-- C5 counterexample: on a frame that already contains a `voltage_A`
column, `get_voltage` resets and overwrites that original column's values
(the input value `5` becomes the queried value `1`), so the claim fails
for frames that already carry a result column. -/
theorem get_voltage_overwrites_existing_column :
    get_voltage envOkW [[("node_id", PyVal.str "n"), ("voltage_A", PyVal.int 5)]] true
      = Except.ok ([Event.queryNode "VpuA" (PyVal.str "n"),
          Event.queryNode "VpuB" (PyVal.str "n"), Event.queryNode "VpuC" (PyVal.str "n")],
        [[("node_id", PyVal.str "n"), ("voltage_A", PyVal.float 1),
          ("voltage_B", PyVal.float 1), ("voltage_C", PyVal.float 1)]]) ∧
    rowGet [("node_id", PyVal.str "n"), ("voltage_A", PyVal.int 5)] "voltage_A"
      = Except.ok (PyVal.int 5) ∧
    rowGet [("node_id", PyVal.str "n"), ("voltage_A", PyVal.float 1),
        ("voltage_B", PyVal.float 1), ("voltage_C", PyVal.float 1)] "voltage_A"
      = Except.ok (PyVal.float 1) ∧
    PyVal.float 1 ≠ PyVal.int 5 := by
  refine ⟨by rfl, rfl, rfl, by simp⟩

/-- C5 (amended): for every input frame that does not already contain the
function's own result columns, each result-extraction function that
returns (queries and casts may raise) returns a frame with the same rows
in the same order, each original row unchanged and extended on the right
by exactly the function's result columns (`framesShaped`); a result column
already present in the input is instead reset and overwritten in place. -/
theorem extraction_functions_frame_effect (env : CymEnv) (frame : Frame) (is_node : Bool) :
    (∀ tr out, (∀ r ∈ frame, ∀ c ∈ ["voltage_A", "voltage_B", "voltage_C"], rowHas r c = false) →
      get_voltage env frame is_node = Except.ok (tr, out) →
      framesShaped frame out ["voltage_A", "voltage_B", "voltage_C"]) ∧
    (∀ tr out, (∀ r ∈ frame, ∀ c ∈ ["overload_A", "overload_B", "overload_C"], rowHas r c = false) →
      get_overload env frame = Except.ok (tr, out) →
      framesShaped frame out ["overload_A", "overload_B", "overload_C"]) ∧
    (∀ tr out, (∀ r ∈ frame, ∀ c ∈ ["MWA", "MWB", "MWC", "MWTOT", "MVARA", "MVARB", "MVARC",
        "MVARTOT"], rowHas r c = false) →
      get_load env frame = Except.ok (tr, out) →
      framesShaped frame out ["MWA", "MWB", "MWC", "MWTOT", "MVARA", "MVARB", "MVARC", "MVARTOT"]) ∧
    (∀ tr out, (∀ r ∈ frame, ∀ c ∈ ["distance"], rowHas r c = false) →
      get_distance env frame = Except.ok (tr, out) →
      framesShaped frame out ["distance"]) ∧
    (∀ tr out, (∀ r ∈ frame, ∀ c ∈ ["latitude", "longitude", "section_id"], rowHas r c = false) →
      get_coordinates env frame = Except.ok (tr, out) →
      framesShaped frame out ["latitude", "longitude", "section_id"]) := by
  exact ⟨fun tr out hf h => get_voltage_shape env frame is_node tr out hf h,
    fun tr out hf h => get_overload_shape env frame tr out hf h,
    fun tr out hf h => get_load_shape env frame tr out hf h,
    fun tr out hf h => get_distance_shape env frame tr out hf h,
    fun tr out hf h => get_coordinates_shape env frame tr out hf h⟩

/-- C5 witness: the five extraction functions on a one-row device frame. -/
theorem extraction_functions_frame_effect_witness :
    framesShaped [[("device_number", PyVal.str "d"), ("device_type_id", PyVal.int 14),
        ("node_id", PyVal.str "n")]]
      [[("device_number", PyVal.str "d"), ("device_type_id", PyVal.int 14),
        ("node_id", PyVal.str "n"), ("voltage_A", PyVal.float 1),
        ("voltage_B", PyVal.float 1), ("voltage_C", PyVal.float 1)]]
      ["voltage_A", "voltage_B", "voltage_C"] ∧
    framesShaped [[("device_number", PyVal.str "d"), ("device_type_id", PyVal.int 14),
        ("node_id", PyVal.str "n")]]
      [[("device_number", PyVal.str "d"), ("device_type_id", PyVal.int 14),
        ("node_id", PyVal.str "n"), ("overload_A", PyVal.float 1),
        ("overload_B", PyVal.float 1), ("overload_C", PyVal.float 1)]]
      ["overload_A", "overload_B", "overload_C"] ∧
    framesShaped [[("device_number", PyVal.str "d"), ("device_type_id", PyVal.int 14),
        ("node_id", PyVal.str "n")]]
      [[("device_number", PyVal.str "d"), ("device_type_id", PyVal.int 14),
        ("node_id", PyVal.str "n"), ("MWA", PyVal.float 1), ("MWB", PyVal.float 1),
        ("MWC", PyVal.float 1), ("MWTOT", PyVal.float 1), ("MVARA", PyVal.float 1),
        ("MVARB", PyVal.float 1), ("MVARC", PyVal.float 1), ("MVARTOT", PyVal.float 1)]]
      ["MWA", "MWB", "MWC", "MWTOT", "MVARA", "MVARB", "MVARC", "MVARTOT"] ∧
    framesShaped [[("device_number", PyVal.str "d"), ("device_type_id", PyVal.int 14),
        ("node_id", PyVal.str "n")]]
      [[("device_number", PyVal.str "d"), ("device_type_id", PyVal.int 14),
        ("node_id", PyVal.str "n"), ("distance", PyVal.float 1)]]
      ["distance"] ∧
    framesShaped [[("device_number", PyVal.str "d"), ("device_type_id", PyVal.int 14),
        ("node_id", PyVal.str "n")]]
      [[("device_number", PyVal.str "d"), ("device_type_id", PyVal.int 14),
        ("node_id", PyVal.str "n"), ("latitude", PyVal.float (1 / (1.26 * 100000))),
        ("longitude", PyVal.float (1 / 100000)), ("section_id", PyVal.float 1)]]
      ["latitude", "longitude", "section_id"] := by
  have h := extraction_functions_frame_effect envOkW
    [[("device_number", PyVal.str "d"), ("device_type_id", PyVal.int 14),
      ("node_id", PyVal.str "n")]] false
  exact ⟨h.1 _ _ (by decide) (by rfl),
    h.2.1 _ _ (by decide) (by rfl),
    h.2.2.1 _ _ (by decide) (by rfl),
    h.2.2.2.1 _ _ (by decide) (by rfl),
    h.2.2.2.2 _ _ (by decide) (by rfl)⟩

/-- C6: the coordinate casts of `list_nodes` and `get_coordinates` are the
same transformation: latitude is `float(CoordY) / (1.26 * 100000)`,
longitude is `float(CoordX) / 100000`, and an empty-string query result
maps to `None` in both. -/
theorem coordinate_cast_equivalence (env : CymEnv) (s : String) (q : ℚ)
    (hs : s ≠ "") (hp : env.parseFloat s = some q) :
    (∀ (env2 : CymEnv) (x : PyVal),
      listNodes_castLatitude env2 x = getCoordinates_castLatitude env2 x ∧
      listNodes_castLongitude env2 x = getCoordinates_castLongitude env2 x) ∧
    listNodes_castLatitude env (PyVal.str s) = Except.ok (PyVal.float (q / (1.26 * 100000))) ∧
    listNodes_castLongitude env (PyVal.str s) = Except.ok (PyVal.float (q / 100000)) ∧
    listNodes_castLatitude env (PyVal.str "") = Except.ok PyVal.none ∧
    listNodes_castLongitude env (PyVal.str "") = Except.ok PyVal.none := by
  refine ⟨fun env2 x => ⟨rfl, rfl⟩, ?_, ?_, rfl, rfl⟩
  · unfold listNodes_castLatitude
    rw [if_neg (by simp [hs])]
    simp only [pyFloat, hp, ok_bind]
  · unfold listNodes_castLongitude
    rw [if_neg (by simp [hs])]
    simp only [pyFloat, hp, ok_bind]

/-- C6 witness: concrete cast agreement at the parsed string "126000". -/
theorem coordinate_cast_equivalence_witness :
    listNodes_castLatitude envParseW (PyVal.str "126000")
      = Except.ok (PyVal.float (126000 / (1.26 * 100000))) ∧
    listNodes_castLongitude envParseW (PyVal.str "126000")
      = Except.ok (PyVal.float (126000 / 100000)) ∧
    listNodes_castLatitude envParseW (PyVal.str "")
      = getCoordinates_castLatitude envParseW (PyVal.str "") := by
  have h := coordinate_cast_equivalence envParseW "126000" 126000 (by decide) rfl
  exact ⟨h.2.1, h.2.2.1, (h.1 envParseW (PyVal.str "")).1⟩

/-- C8: when `fmu_wrapper` adds a load device, the requested active power
is split equally across the device's phases: with a non-empty phase string
of length n every per-phase KW write carries `active_power / n` and the n
written values sum to `active_power`; with an empty phase list the
division is unguarded and the operation fails (`ZeroDivisionError`) rather
than defaulting. -/
theorem load_power_split (env : CymEnv) (load : Load) (i : ℕ) (s : String)
    (hq : env.queryInfoDevice "Phase" (PyVal.str ("MY_LOAD_" ++ toString i)) 14
      = Except.ok (PyVal.str s)) :
    (s.length ≠ 0 →
      _add_loads_go env i [load] = Except.ok
        (Event.addDevice ("MY_LOAD_" ++ toString i) 14 load.section_id "DEFAULT" true ::
          Event.queryDevice "Phase" (PyVal.str ("MY_LOAD_" ++ toString i)) 14 ::
          setKWLoop (load.active_power / (s.length : ℚ)) ("MY_LOAD_" ++ toString i) s.length) ∧
      (∀ v a name ty, Event.setValueDevice v a name ty ∈
          setKWLoop (load.active_power / (s.length : ℚ)) ("MY_LOAD_" ++ toString i) s.length →
          v = PyVal.float (load.active_power / (s.length : ℚ))) ∧
      (setKWLoop (load.active_power / (s.length : ℚ)) ("MY_LOAD_" ++ toString i) s.length).length
        = s.length ∧
      (List.replicate s.length (load.active_power / (s.length : ℚ))).sum = load.active_power) ∧
    (s.length = 0 → _add_loads_go env i [load] = Except.error ()) := by
  have hlen2 : (s.data.map (fun c => PyVal.str (String.singleton c))).length = s.length := by
    rw [List.length_map]
    rfl
  constructor
  · intro hne
    refine ⟨?_, ?_, ?_, ?_⟩
    · unfold _add_loads_go
      simp only [hq, ok_bind, pyList, hlen2]
      rw [if_neg hne]
      unfold _add_loads_go
      simp only [ok_bind]
      rw [List.append_nil]
    · intro v a name ty hm
      unfold setKWLoop at hm
      obtain ⟨phase, _, hee⟩ := List.mem_map.mp hm
      injection hee with h1 h2 h3 h4
      exact h1.symm
    · unfold setKWLoop
      rw [List.length_map, List.length_range]
    · rw [List.sum_replicate, nsmul_eq_mul]
      rw [mul_div_cancel₀]
      exact Nat.cast_ne_zero.mpr hne
  · intro hz
    unfold _add_loads_go
    simp only [hq, ok_bind, pyList]
    rw [if_pos]
    rw [hlen2]
    exact hz

/-- C8 witness: a two-phase ("AB") load of 100 kW is split into two
writes of 100/2, which sum back to 100; the phase list is non-empty. -/
theorem load_power_split_witness :
    ("AB".length ≠ 0) ∧
    _add_loads_go envPhaseW 0 [⟨"s1", 100, "KW"⟩] = Except.ok
      (Event.addDevice ("MY_LOAD_" ++ toString 0) 14 "s1" "DEFAULT" true ::
        Event.queryDevice "Phase" (PyVal.str ("MY_LOAD_" ++ toString 0)) 14 ::
        setKWLoop (100 / ("AB".length : ℚ)) ("MY_LOAD_" ++ toString 0) "AB".length) ∧
    (List.replicate "AB".length ((100 : ℚ) / ("AB".length : ℚ))).sum = 100 := by
  have h := load_power_split envPhaseW ⟨"s1", 100, "KW"⟩ 0 "AB" rfl
  have h1 := h.1 (by decide)
  exact ⟨by decide, h1.1, h1.2.2.2⟩

/-- C9: PV sizing sets `Np = floor((g + 30) / (23 * 0.08))` panels (for
`g ≥ 0` the Python `int()` truncation equals the floor), and the resulting
rated power `23 * 0.08 * Np` is at least the requested generation `g`,
exactly over rational arithmetic; the inverter active and reactive power
ratings are both set to `g`. -/
theorem pv_sizing (i : ℕ) (pv : Pv) (hg : 0 ≤ pv.generation) :
    _add_pvs_go i [pv] = Except.ok
      [Event.addPvDevice ("my_pv_" ++ toString i) pv.section_id,
       Event.devSetValue ("my_pv_" ++ toString i)
         (PyVal.int ⌊(pv.generation + 30) / (23 * 0.08)⌋) "Np",
       Event.devSetValue ("my_pv_" ++ toString i) (PyVal.float pv.generation)
         "GenerationModels[0].ActiveGeneration",
       Event.devSetValue ("my_pv_" ++ toString i) (PyVal.float pv.generation)
         "Inverter.ActivePowerRating",
       Event.devSetValue ("my_pv_" ++ toString i) (PyVal.float pv.generation)
         "Inverter.ReactivePowerRating"] ∧
    pv.generation ≤ (23 * 0.08 : ℚ) * (⌊(pv.generation + 30) / (23 * 0.08)⌋ : ℚ) := by
  have hc : (0 : ℚ) < 23 * 0.08 := by norm_num
  have hq0 : 0 ≤ (pv.generation + 30) / (23 * 0.08) :=
    div_nonneg (by linarith) (le_of_lt hc)
  constructor
  · unfold _add_pvs_go
    unfold _add_pvs_go
    simp only [ok_bind]
    unfold pyInt
    rw [if_pos hq0]
  · have hfl : (pv.generation + 30) / (23 * 0.08) - 1
        < (⌊(pv.generation + 30) / (23 * 0.08)⌋ : ℚ) := Int.sub_one_lt_floor _
    have hmul : (23 * 0.08 : ℚ) * ((pv.generation + 30) / (23 * 0.08))
        = pv.generation + 30 := mul_div_cancel₀ _ (by norm_num)
    have h2 := mul_lt_mul_of_pos_left hfl hc
    linarith [h2, hmul]

/-- C9 witness: a 100 kW PV request. -/
theorem pv_sizing_witness :
    (0 : ℚ) ≤ 100 ∧
    _add_pvs_go 0 [⟨"s2", 100, "KW"⟩] = Except.ok
      [Event.addPvDevice ("my_pv_" ++ toString 0) "s2",
       Event.devSetValue ("my_pv_" ++ toString 0)
         (PyVal.int ⌊((100 : ℚ) + 30) / (23 * 0.08)⌋) "Np",
       Event.devSetValue ("my_pv_" ++ toString 0) (PyVal.float 100)
         "GenerationModels[0].ActiveGeneration",
       Event.devSetValue ("my_pv_" ++ toString 0) (PyVal.float 100)
         "Inverter.ActivePowerRating",
       Event.devSetValue ("my_pv_" ++ toString 0) (PyVal.float 100)
         "Inverter.ReactivePowerRating"] ∧
    (100 : ℚ) ≤ (23 * 0.08 : ℚ) * (⌊((100 : ℚ) + 30) / (23 * 0.08)⌋ : ℚ) := by
  have h := pv_sizing 0 ⟨"s2", 100, "KW"⟩ (by norm_num)
  exact ⟨by norm_num, h.1, h.2⟩

/-- C10: a successful `fmu_wrapper` run returns a list whose length is the
minimum of the lengths of `output_nodes` and `output_names` (extra trailing
entries in the longer list are silently ignored), and whose i-th element is
the query result (default `0` on failure or falsy result) for the i-th
(node, name) pair, in input order. -/
theorem fmu_wrapper_output_alignment (env : CymEnv) (m : String)
    (vn : List String) (vv : List ℚ) (ls lpn : List String) (lv : List ℚ)
    (ps ppn : List String) (pvv : List ℚ) (onames onodes : List String) (w : String)
    (tr : List Event) (out : List PyVal)
    (h : fmu_wrapper env m vn vv ls lpn lv ps ppn pvv onames onodes w = Except.ok (tr, out)) :
    out.length = min onodes.length onames.length ∧
    ∀ (i : ℕ) (node name : String), onodes[i]? = some node → onames[i]? = some name →
      out[i]? = some (match env.queryInfoNode name (PyVal.str node) with
        | Except.ok temp => if temp.truthy then temp else PyVal.int 0
        | Except.error _ => PyVal.int 0) := by
  obtain ⟨vEvs, lEvs, pEvs, hv, hl, hp, htr, hout⟩ :=
    fmu_wrapper_ok_inv env m vn vv ls lpn lv ps ppn pvv onames onodes w tr out h
  subst hout
  obtain ⟨hlen, hidx⟩ := outputLoop_values env (PyVal.int 0) (List.zip onodes onames)
  constructor
  · unfold _output_values
    rw [hlen, List.length_zip]
  · intro i node name h1 h2
    exact hidx i node name (zip_getElem? onodes onames i node name h1 h2)

/-- C10 witness: three nodes against two names yield two outputs, aligned
with the first two pairs. -/
theorem fmu_wrapper_output_alignment_witness :
    [PyVal.float 1, PyVal.float 1].length = min 3 2 ∧
    [PyVal.float 1, PyVal.float 1][0]? = some (PyVal.float 1) := by
  have h := fmu_wrapper_output_alignment envOkW "m" ["VMAG_A", "VMAG_B", "VMAG_C"]
    [1000, 2000, 3000] [] [] [] [] [] [] ["KWA", "KWB"] ["n1", "n2", "n3"] "False"
    [Event.openModel "m", Event.listNetworksEv,
      Event.setValueTopo (1000 / 1000)
        "Sources[0].EquivalentSourceModels[0].EquivalentSource.OperatingVoltage1" 7,
      Event.setValueTopo (2000 / 1000)
        "Sources[0].EquivalentSourceModels[0].EquivalentSource.OperatingVoltage2" 7,
      Event.setValueTopo (3000 / 1000)
        "Sources[0].EquivalentSourceModels[0].EquivalentSource.OperatingVoltage3" 7,
      Event.loadFlowRun,
      Event.queryNode "KWA" (PyVal.str "n1"),
      Event.queryNode "KWB" (PyVal.str "n2")]
    [PyVal.float 1, PyVal.float 1] (by rfl)
  refine ⟨?_, ?_⟩
  · simpa using h.1
  · have h2 := h.2 0 "n1" "KWA" rfl rfl
    simpa using h2
